import Mathlib

/-!
Verification development for the Bedrock-agent trace-evaluation repository.

The Python sources are shallowly embedded: Python dicts that carry trace
events are modelled by the inductive type `JValue`; `dict.get(k, default)`
becomes `dget`; the observability backend's span scopes become an explicit
event log (`SpanEvent`); exceptions become `Option PyExn` / `Except PyExn`
values.  Machine floats of the source appear only as similarity ratios and
durations and are modelled by exact rationals.
-/

namespace DD

/-- A Python/JSON value as used by the trace pipeline: `None`, booleans,
integers, non-integer numeric literals (kept as raw text), strings, lists
and dicts (association lists in insertion order). -/
inductive JValue where
  | null
  | bool (b : Bool)
  | num (n : Int)
  | numOther (raw : String)
  | str (s : String)
  | arr (items : List JValue)
  | obj (fields : List (String × JValue))

/-- First-match lookup in an association list, modelling a Python dict key
lookup (the sources never build duplicate keys). -/
def jlookup : List (String × JValue) → String → Option JValue
  | [], _ => none
  | (k, v) :: rest, key => if k = key then some v else jlookup rest key

/-- Key lookup on a `JValue`: `some` only when the value is a dict holding
the key. -/
def JValue.getKey : JValue → String → Option JValue
  | .obj fs, k => jlookup fs k
  | _, _ => none

/-- Model of Python `d.get(k, default)`.  The sources only call `.get` on
values produced by a previous `.get(k, {})`, so the receiver is a dict on
every path exercised here; for a non-dict receiver (where Python would
raise `AttributeError`, outside every claim's scope) the default is
returned. -/
def dget (v : JValue) (k : String) (d : JValue) : JValue := (v.getKey k).getD d

/-- Model of the Python membership test `k in d`. -/
def hasKey (v : JValue) (k : String) : Bool := (v.getKey k).isSome

/-- Model of Python `len` on the values the pipeline measures (strings,
lists, dicts). -/
def pyLen : JValue → Nat
  | .str s => s.length
  | .arr xs => xs.length
  | .obj fs => fs.length
  | _ => 0

/-- Model of Python truthiness for the values tested by the pipeline. -/
def pyTruthy : JValue → Bool
  | .null => false
  | .bool b => b
  | .num n => n ≠ 0
  | .numOther _ => true
  | .str s => s ≠ ""
  | .arr xs => ¬ xs.isEmpty
  | .obj fs => ¬ fs.isEmpty

/-- Depth-bounded Python `repr`-style rendering used only by `pyStrOf` for
container values (a path no claim exercises; scalars are rendered
exactly). -/
def pyReprF : Nat → JValue → String
  | 0, _ => "..."
  | _ + 1, .null => "None"
  | _ + 1, .bool true => "True"
  | _ + 1, .bool false => "False"
  | _ + 1, .num n => toString n
  | _ + 1, .numOther raw => raw
  | _ + 1, .str s => "'" ++ s ++ "'"
  | f + 1, .arr xs => "[" ++ String.intercalate ", " (xs.map (pyReprF f)) ++ "]"
  | f + 1, .obj fs =>
      "\x7b" ++ String.intercalate ", "
        (fs.map (fun kv => "'" ++ kv.1 ++ "': " ++ pyReprF f kv.2)) ++ "\x7d"

/-- Model of Python `str(v)` / f-string interpolation of a value. -/
def pyStrOf : JValue → String
  | .str s => s
  | .bool true => "True"
  | .bool false => "False"
  | .null => "None"
  | .num n => toString n
  | .numOther raw => raw
  | v => pyReprF 64 v

/-- String content of a value when it is a string, else a default —
used where the source reads a field that is a string on every exercised
path. -/
def asStrD (v : JValue) (d : String) : String :=
  match v with
  | .str s => s
  | _ => d

/-- Python's `\s` class restricted to ASCII (the repository's data is
text; `str.lower`/`\s` subtleties beyond ASCII are outside the claims). -/
def pyIsSpace (c : Char) : Bool :=
  c = ' ' ∨ c = '\t' ∨ c = '\n' ∨ c = '\r' ∨ c = '\x0b' ∨ c = '\x0c'

/-- Model of the Python comparison `v == s` for a string literal `s` (a
non-string value never equals a string). -/
def jStrEq (v : JValue) (s : String) : Bool :=
  match v with
  | .str t => t = s
  | _ => false

/-- Model of Python `str.strip()` (leading and trailing whitespace
removed). -/
def pyStrip (s : String) : String :=
  ⟨((s.data.dropWhile pyIsSpace).reverse.dropWhile pyIsSpace).reverse⟩

/-- Model of Python `s.startswith(pre)`. -/
def pyStartsWith (s pre : String) : Bool :=
  decide (s.data.take pre.data.length = pre.data)

/-- Model of Python `s.endswith(suf)`. -/
def pyEndsWith (s suf : String) : Bool :=
  decide (s.data.reverse.take suf.data.length = suf.data.reverse)

/-! JSON decoding, modelling `json.loads`.  A recursive-descent parser on
the character list; `fuel` bounds nesting and strictly exceeds the input
length at the call site, so it never runs out on inputs the source can
see. -/

/-- JSON document whitespace. -/
def jsonWs (c : Char) : Bool := c = ' ' ∨ c = '\t' ∨ c = '\n' ∨ c = '\r'

/-- Value of a hexadecimal digit. -/
def hexVal (c : Char) : Option Nat :=
  if '0' ≤ c ∧ c ≤ '9' then some (c.toNat - 48)
  else if 'a' ≤ c ∧ c ≤ 'f' then some (c.toNat - 87)
  else if 'A' ≤ c ∧ c ≤ 'F' then some (c.toNat - 70)
  else none

/-- Decimal digit test. -/
def isDigit (c : Char) : Bool := '0' ≤ c ∧ c ≤ '9'

/-- Four hex digits of a `\u` escape. -/
def parseHex4 : List Char → Option (Nat × List Char)
  | a :: b :: c :: d :: rest =>
      match hexVal a, hexVal b, hexVal c, hexVal d with
      | some x, some y, some z, some w => some (x * 4096 + y * 256 + z * 16 + w, rest)
      | _, _, _, _ => none
  | _ => none

/-- Character for a code point, clamped to valid scalar values (lone
surrogates of malformed `\u` escapes are outside every claim). -/
def charOfCode (n : Nat) : Char := Char.ofNat n

/-- JSON string body after the opening quote: returns the decoded content
and the input after the closing quote. -/
def parseStrBody (fuel : Nat) (cs : List Char) (acc : List Char) : Option (String × List Char) :=
  match fuel, cs with
  | 0, _ => none
  | _ + 1, [] => none
  | _ + 1, '"' :: rest => some (⟨acc.reverse⟩, rest)
  | f + 1, '\\' :: esc :: rest =>
      match esc with
      | '"' => parseStrBody f rest ('"' :: acc)
      | '\\' => parseStrBody f rest ('\\' :: acc)
      | '/' => parseStrBody f rest ('/' :: acc)
      | 'b' => parseStrBody f rest ('\x08' :: acc)
      | 'f' => parseStrBody f rest ('\x0c' :: acc)
      | 'n' => parseStrBody f rest ('\n' :: acc)
      | 'r' => parseStrBody f rest ('\r' :: acc)
      | 't' => parseStrBody f rest ('\t' :: acc)
      | 'u' =>
          match parseHex4 rest with
          | some (n, rest') => parseStrBody f rest' (charOfCode n :: acc)
          | none => none
      | _ => none
  | _ + 1, '\\' :: [] => none
  | f + 1, c :: rest => if c.toNat < 32 then none else parseStrBody f rest (c :: acc)

/-- Longest digit prefix. -/
def takeDigits (cs : List Char) : List Char × List Char :=
  (cs.takeWhile isDigit, cs.dropWhile isDigit)

/-- Natural value of a digit list. -/
def digitsToNat (ds : List Char) : Nat :=
  ds.foldl (fun acc c => acc * 10 + (c.toNat - 48)) 0

/-- JSON number: an integer literal becomes `.num`, any literal with a
fraction or exponent keeps its raw text as `.numOther` (Python would make
a float; no claim involves non-integer numbers). -/
def parseNum (cs : List Char) : Option (JValue × List Char) :=
  let (neg, cs1) := match cs with
    | '-' :: rest => (true, rest)
    | _ => (false, cs)
  let (intDs, cs2) := takeDigits cs1
  if intDs = [] then none
  else
    let (fracDs, cs3) := match cs2 with
      | '.' :: rest =>
          let (ds, r) := takeDigits rest
          if ds = [] then ([], cs2) else ('.' :: ds, r)
      | _ => ([], cs2)
    let hasFrac := fracDs ≠ []
    if hasFrac ∧ fracDs = ['.'] then none
    else
      let (expDs, cs4) := match cs3 with
        | 'e' :: rest => expTail rest
        | 'E' :: rest => expTail rest
        | _ => ([], cs3)
      let hasExp := expDs ≠ []
      if ¬ hasFrac ∧ ¬ hasExp then
        let n : Int := Int.ofNat (digitsToNat intDs)
        some (.num (if neg then -n else n), cs2)
      else
        let raw : List Char := (if neg then ['-'] else []) ++ intDs ++ fracDs ++ expDs
        some (.numOther ⟨raw⟩, cs4)
where
  /-- Exponent part after the `e`/`E` (sign and digits), or `[]` when the
  tail is not a valid exponent. -/
  expTail (rest : List Char) : List Char × List Char :=
    let (sgn, r1) := match rest with
      | '+' :: r => (['+'], r)
      | '-' :: r => (['-'], r)
      | _ => ([], rest)
    let (ds, r2) := takeDigits r1
    if ds = [] then ([], rest) else ('e' :: sgn ++ ds, r2)

mutual

/-- One JSON value. -/
def parseVal (fuel : Nat) (cs : List Char) : Option (JValue × List Char) :=
  match fuel with
  | 0 => none
  | f + 1 =>
    match cs.dropWhile jsonWs with
    | 'n' :: 'u' :: 'l' :: 'l' :: rest => some (.null, rest)
    | 't' :: 'r' :: 'u' :: 'e' :: rest => some (.bool true, rest)
    | 'f' :: 'a' :: 'l' :: 's' :: 'e' :: rest => some (.bool false, rest)
    | '"' :: rest =>
        match parseStrBody (rest.length + 1) rest [] with
        | some (s, rest') => some (.str s, rest')
        | none => none
    | '[' :: rest =>
        (match (rest.dropWhile jsonWs) with
          | ']' :: rest' => some (.arr [], rest')
          | _ => match parseArrItems f rest [] with
                 | some (xs, rest') => some (.arr xs, rest')
                 | none => none)
    | '\x7b' :: rest =>
        (match (rest.dropWhile jsonWs) with
          | '\x7d' :: rest' => some (.obj [], rest')
          | _ => match parseObjItems f rest [] with
                 | some (fs, rest') => some (.obj fs, rest')
                 | none => none)
    | other => parseNum other

/-- Array items after `[` (at least one). -/
def parseArrItems (fuel : Nat) (cs : List Char) (acc : List JValue) : Option (List JValue × List Char) :=
  match fuel with
  | 0 => none
  | f + 1 =>
    match parseVal f cs with
    | none => none
    | some (v, rest) =>
      match rest.dropWhile jsonWs with
      | ',' :: rest' => parseArrItems f rest' (v :: acc)
      | ']' :: rest' => some ((v :: acc).reverse, rest')
      | _ => none

/-- Object members after the opening brace (at least one). -/
def parseObjItems (fuel : Nat) (cs : List Char) (acc : List (String × JValue)) : Option (List (String × JValue) × List Char) :=
  match fuel with
  | 0 => none
  | f + 1 =>
    match cs.dropWhile jsonWs with
    | '"' :: rest =>
      (match parseStrBody (rest.length + 1) rest [] with
       | none => none
       | some (k, rest1) =>
         match rest1.dropWhile jsonWs with
         | ':' :: rest2 =>
           (match parseVal f rest2 with
            | none => none
            | some (v, rest3) =>
              match rest3.dropWhile jsonWs with
              | ',' :: rest4 => parseObjItems f rest4 ((k, v) :: acc)
              | '\x7d' :: rest4 => some (((k, v) :: acc).reverse, rest4)
              | _ => none)
         | _ => none)
    | _ => none

end

/-- Model of `json.loads`: parse one document and require only whitespace
after it; `none` models a raised `json.JSONDecodeError`. -/
def loads (s : String) : Option JValue :=
  match parseVal (s.length + 1) s.data with
  | some (v, rest) => if rest.dropWhile jsonWs = [] then some v else none
  | none => none

/-! JSON encoding, modelling `json.dumps(..., indent=2)` (default
`ensure_ascii=True`). -/

/-- Hex digit character. -/
def hexDigit (n : Nat) : Char :=
  if n < 10 then Char.ofNat (48 + n) else Char.ofNat (87 + n)

/-- Four-digit hex rendering of a code point below 0x10000. -/
def hex4 (n : Nat) : String :=
  ⟨[hexDigit (n / 4096 % 16), hexDigit (n / 256 % 16), hexDigit (n / 16 % 16), hexDigit (n % 16)]⟩

/-- Escaping of one character inside a dumped JSON string
(`ensure_ascii=True`; code points beyond the basic plane, which Python
would emit as surrogate pairs, do not occur in the claims). -/
def escapeJsonChar (c : Char) : String :=
  if c = '"' then "\\\""
  else if c = '\\' then "\\\\"
  else if c = '\n' then "\\n"
  else if c = '\t' then "\\t"
  else if c = '\r' then "\\r"
  else if c = '\x08' then "\\b"
  else if c = '\x0c' then "\\f"
  else if c.toNat < 32 ∨ 127 ≤ c.toNat then "\\u" ++ hex4 c.toNat
  else ⟨[c]⟩

/-- Dumped JSON string literal. -/
def dumpStr (s : String) : String :=
  "\"" ++ String.join (s.data.map escapeJsonChar) ++ "\""

/-- A run of `n` spaces. -/
def spaces (n : Nat) : String := ⟨List.replicate n ' '⟩

/-- Depth-bounded body of `json.dumps(v, indent=2)`; `ind` is the current
indentation width. -/
def dumpsInd : Nat → JValue → Nat → String
  | 0, _, _ => ""
  | _ + 1, .null, _ => "null"
  | _ + 1, .bool true, _ => "true"
  | _ + 1, .bool false, _ => "false"
  | _ + 1, .num n, _ => toString n
  | _ + 1, .numOther raw, _ => raw
  | _ + 1, .str s, _ => dumpStr s
  | _ + 1, .arr [], _ => "[]"
  | f + 1, .arr xs, ind =>
      "[\n" ++
      String.intercalate ",\n"
        (xs.map (fun v => spaces (ind + 2) ++ dumpsInd f v (ind + 2))) ++
      "\n" ++ spaces ind ++ "]"
  | _ + 1, .obj [], _ => "\x7b\x7d"
  | f + 1, .obj fs, ind =>
      "\x7b\n" ++
      String.intercalate ",\n"
        (fs.map (fun kv => spaces (ind + 2) ++ dumpStr kv.1 ++ ": " ++ dumpsInd f kv.2 (ind + 2))) ++
      "\n" ++ spaces ind ++ "\x7d"

/-- Model of `json.dumps(v, indent=2)` (depth 64 exceeds every value the
pipeline builds). -/
def jdumps (v : JValue) : String := dumpsInd 64 v 0

/-! `utils/text_processing.py`. -/

/-- Model of `safe_json_parse` (`utils/text_processing.py`).  Mirrors the
`try` body statement by statement: the unquoting step rebinds `text`, so
the `except` clause returns the unquoted string when the second parse
fails, and the original string when the first parse fails. -/
def safe_json_parse (text : String) : JValue :=
  if pyStartsWith text "\"" ∧ pyEndsWith text "\"" then
    match loads text with
    | none => .str text
    | some v =>
      match v with
      | .str t =>
          if pyStartsWith (pyStrip t) "\x7b" then
            match loads t with
            | some v2 => v2
            | none => .str t
          else .str t
      | other => other
  else
    if pyStartsWith (pyStrip text) "\x7b" then
      match loads text with
      | some v2 => v2
      | none => .str text
    else .str text

/-- Model of `format_response_for_display` (`utils/text_processing.py`):
dump the parse result indented when it is a dict, otherwise return the
original string unchanged. -/
def format_response_for_display (response_text : String) : String :=
  match safe_json_parse response_text with
  | .obj fs => jdumps (.obj fs)
  | _ => response_text

/-- One step of `extract_chunks_from_trace`'s loop; `.error` models an
uncaught exception inside the `try` (a non-string where the code slices
or joins), which the enclosing handler turns into `""`. -/
def extractChunkStep (chunks_text : String) (trace_event : JValue) : Except Unit String :=
  if hasKey trace_event "trace" then
    let trace := dget trace_event "trace" .null
    if hasKey trace "orchestrationTrace" then
      let orchestration := dget trace "orchestrationTrace" .null
      if hasKey orchestration "observation" then
        let observation := dget orchestration "observation" .null
        if hasKey observation "actionGroupInvocationOutput" then
          let action_output := dget observation "actionGroupInvocationOutput" .null
          if hasKey action_output "text" then
            match dget action_output "text" .null with
            | .str t =>
                if pyStartsWith t "\"" ∧ pyEndsWith t "\"" then
                  match loads t with
                  | some (.str u) => .ok u
                  | _ => .ok t
                else .ok t
            | _ => .error ()
          else .ok chunks_text
        else if hasKey observation "knowledgeBaseLookupOutput" then
          let kb_output := dget observation "knowledgeBaseLookupOutput" .null
          if hasKey kb_output "retrievedReferences" then
            match dget kb_output "retrievedReferences" .null with
            | .arr refs =>
                let texts := refs.filterMap (fun ref =>
                  match (dget ref "content" .null).getKey "text" with
                  | some (.str t) => some t
                  | _ => none)
                .ok (String.intercalate "\n\n" texts)
            | _ => .ok chunks_text
          else .ok chunks_text
        else .ok chunks_text
      else .ok chunks_text
    else .ok chunks_text
  else .ok chunks_text

/-- Loop of `extract_chunks_from_trace` over the trace events. -/
def extractChunksGo (chunks_text : String) : List JValue → Except Unit String
  | [] => .ok chunks_text
  | ev :: rest =>
      match extractChunkStep chunks_text ev with
      | .ok s => extractChunksGo s rest
      | .error e => .error e

/-- Model of `extract_chunks_from_trace` (`utils/text_processing.py`):
keeps the last matching observation's text, unquoting a quoted JSON
string; any internal exception yields `""`. -/
def extract_chunks_from_trace (trace_events : List JValue) : String :=
  match extractChunksGo "" trace_events with
  | .ok s => s
  | .error _ => ""

/-! The observability backend (`LLMObs`) is modelled by an event log:
opening/closing a span scope and the single `annotate` call become list
entries, so nesting is the lexical order of the log. -/

/-- Span categories offered by the backend. -/
inductive SpanKind where
  | workflow
  | agent
  | task
  | tool
  | retrieval
  | llm
  deriving DecidableEq, Repr

/-- Payload of one `LLMObs.annotate` call. -/
structure AnnPayload where
  input : JValue
  output : JValue
  metadata : List (String × JValue)
  tags : List (String × JValue)

/-- One backend interaction. -/
inductive SpanEvent where
  | openSpan (kind : SpanKind) (name : String) (session : String)
  | closeSpan (kind : SpanKind) (name : String)
  | annEvent (p : AnnPayload)

/-- A Python exception value (type name and message). -/
structure PyExn where
  ty : String
  msg : String
  deriving DecidableEq, Repr

/-- Effect of a code block: the backend events it emitted and the
exception it is currently propagating, if any. -/
abbrev Eff := List SpanEvent × Option PyExn

/-- A block that does nothing. -/
def effPure : Eff := ([], none)

/-- Sequential composition: a propagating exception skips the rest. -/
def effSeq (x y : Eff) : Eff :=
  match x.2 with
  | some _ => x
  | none => (x.1 ++ y.1, y.2)

/-- A `with <span>:` block: the scope is closed on every exit path,
including exception propagation. -/
def effScope (k : SpanKind) (n : String) (sid : String) (body : Eff) : Eff :=
  (SpanEvent.openSpan k n sid :: body.1 ++ [SpanEvent.closeSpan k n], body.2)

/-- A successful `annotate` call. -/
def effAnn (p : AnnPayload) : Eff := ([SpanEvent.annEvent p], none)

/-- A span scope whose body is one successful `annotate`. -/
def annotated (k : SpanKind) (n : String) (sid : String) (p : AnnPayload) : List SpanEvent :=
  (effScope k n sid (effAnn p)).1

/-- The open events of a log, as (category, name) pairs. -/
def opensOf (log : List SpanEvent) : List (SpanKind × String) :=
  log.filterMap (fun e =>
    match e with
    | .openSpan k n _ => some (k, n)
    | _ => none)

/-- The open/close skeleton of a log (`true` = open). -/
def skeletonOf (log : List SpanEvent) : List (Bool × SpanKind × String) :=
  log.filterMap (fun e =>
    match e with
    | .openSpan k n _ => some (true, k, n)
    | .closeSpan k n => some (false, k, n)
    | .annEvent _ => none)

/-- Stack check that every opened scope is closed, in LIFO order. -/
def nestOk : List SpanEvent → List (SpanKind × String) → Bool
  | [], [] => true
  | [], _ :: _ => false
  | .openSpan k n _ :: rest, st => nestOk rest ((k, n) :: st)
  | .closeSpan k n :: rest, (k', n') :: st =>
      if k = k' ∧ n = n' then nestOk rest st else false
  | .closeSpan _ _ :: _, [] => false
  | .annEvent _ :: rest, st => nestOk rest st

/-- A log is well scoped when, starting from no open scope, every open is
eventually closed and closes match the innermost open. -/
def wellScoped (log : List SpanEvent) : Bool := nestOk log []

/-! `processors/trace_processor.py`: the per-stage field extractors.  Each
record field holds the corresponding Python local, extracted with
`dict.get` defaults exactly as in the source, so extraction is total
(never raises) by construction. -/

/-- Locals of `_process_preprocessing_trace`. -/
structure PreExtract where
  prompt_text : JValue
  rationaleText : JValue
  is_valid : JValue
  foundation_model : JValue
  usage : JValue

/-- Field extraction of `_process_preprocessing_trace`
(`trace_processor.py` lines 51-57 and the metadata reads). -/
def extract_preprocessing (preprocessing : JValue) : PreExtract :=
  let model_input := dget preprocessing "modelInvocationInput" (.obj [])
  let model_output := dget preprocessing "modelInvocationOutput" (.obj [])
  { prompt_text := dget model_input "text" (.str "")
  , rationaleText := dget (dget model_output "parsedResponse" (.obj [])) "rationale" (.str "")
  , is_valid := dget (dget model_output "parsedResponse" (.obj [])) "isValid" (.bool true)
  , foundation_model := dget model_input "foundationModel" (.str "")
  , usage := dget (dget model_output "metadata" (.obj [])) "usage" (.obj []) }

/-- Locals of `_process_action_group_input`. -/
structure AGInputExtract where
  action_name : JValue
  api_path : JValue
  verb : JValue
  parameters : JValue
  execution_type : JValue

/-- Field extraction of `_process_action_group_input`
(`trace_processor.py` lines 138-142, 155). -/
def extract_action_group_input (invocation_input : JValue) : AGInputExtract :=
  let action_input := dget invocation_input "actionGroupInvocationInput" (.obj [])
  { action_name := dget action_input "actionGroupName" (.str "")
  , api_path := dget action_input "apiPath" (.str "")
  , verb := dget action_input "verb" (.str "")
  , parameters := dget action_input "parameters" (.arr [])
  , execution_type := dget action_input "executionType" (.str "") }

/-- Locals of `_process_knowledge_base_output`. -/
structure KBOutExtract where
  references : JValue
  retrieved_docs : List JValue
  all_text : String

/-- The `retrieved_docs` loop of `_process_knowledge_base_output`
(`trace_processor.py` lines 255-264): keep only references with truthy
text, numbering them in order. -/
def buildDocs (refs : List JValue) : List JValue :=
  (refs.foldl (fun (acc : List JValue) ref =>
    let text := dget (dget ref "content" (.obj [])) "text" (.str "")
    let source := dget (dget (dget ref "location" (.obj [])) "s3Location" (.obj [])) "uri" (.str "")
    if pyTruthy text then
      .obj [("text", text), ("source", source),
            ("id", .str ("doc_" ++ toString (acc.length + 1)))] :: acc
    else acc) []).reverse

/-- Field extraction of `_process_knowledge_base_output`
(`trace_processor.py` lines 251-266). -/
def extract_knowledge_base_output (observation : JValue) : KBOutExtract :=
  let kb_output := dget observation "knowledgeBaseLookupOutput" (.obj [])
  let references := dget kb_output "retrievedReferences" (.arr [])
  let refList := match references with
    | .arr l => l
    | _ => []
  let retrieved_docs := buildDocs refList
  { references := references
  , retrieved_docs := retrieved_docs
  , all_text := String.intercalate "\n\n"
      (retrieved_docs.map (fun doc => asStrD (dget doc "text" (.str "")) "")) }

/-- Locals of `_process_guardrail_trace`. -/
structure GuardrailExtract where
  action : JValue
  input_assessments : JValue
  output_assessments : JValue

/-- Field extraction of `_process_guardrail_trace`
(`trace_processor.py` lines 381, 390-391). -/
def extract_guardrail (guardrail : JValue) : GuardrailExtract :=
  { action := dget guardrail "action" (.str "")
  , input_assessments := dget guardrail "inputAssessments" (.arr [])
  , output_assessments := dget guardrail "outputAssessments" (.arr []) }

/-- Locals of `_process_rationale`. -/
structure RationaleExtract where
  rationale_text : JValue

/-- Field extraction of `_process_rationale` (`trace_processor.py`
line 101), over the `rationale` object. -/
def extract_rationale (rationale : JValue) : RationaleExtract :=
  { rationale_text := dget rationale "text" (.str "") }

/-- Locals of `_process_knowledge_base_input`. -/
structure KBInputExtract where
  kb_id : JValue
  query_text : JValue

/-- Field extraction of `_process_knowledge_base_input`
(`trace_processor.py` lines 167-169). -/
def extract_knowledge_base_input (invocation_input : JValue) : KBInputExtract :=
  let kb_input := dget invocation_input "knowledgeBaseLookupInput" (.obj [])
  { kb_id := dget kb_input "knowledgeBaseId" (.str "")
  , query_text := dget kb_input "text" (.str "") }

/-- Locals of `_process_collaborator_input`. -/
structure CollabInputExtract where
  collab_name : JValue
  input_text : JValue
  collaborator_arn : JValue

/-- Field extraction of `_process_collaborator_input`
(`trace_processor.py` lines 188-190, 198). -/
def extract_collaborator_input (invocation_input : JValue) : CollabInputExtract :=
  let collab_input := dget invocation_input "agentCollaboratorInvocationInput" (.obj [])
  { collab_name := dget collab_input "agentCollaboratorName" (.str "")
  , input_text := dget (dget collab_input "input" (.obj [])) "text" (.str "")
  , collaborator_arn := dget collab_input "agentCollaboratorAliasArn" (.str "") }

/-- Locals of `_process_action_group_output`. -/
structure AGOutputExtract where
  response_text : JValue

/-- Field extraction of `_process_action_group_output`
(`trace_processor.py` lines 229-230). -/
def extract_action_group_output (observation : JValue) : AGOutputExtract :=
  let action_output := dget observation "actionGroupInvocationOutput" (.obj [])
  { response_text := dget action_output "text" (.str "") }

/-- Locals of `_process_collaborator_output`. -/
structure CollabOutputExtract where
  collab_name : JValue
  output_text : JValue

/-- Field extraction of `_process_collaborator_output`
(`trace_processor.py` lines 286-288). -/
def extract_collaborator_output (observation : JValue) : CollabOutputExtract :=
  let collab_output := dget observation "agentCollaboratorInvocationOutput" (.obj [])
  { collab_name := dget collab_output "agentCollaboratorName" (.str "")
  , output_text := dget (dget collab_output "output" (.obj [])) "text" (.str "") }

/-- Locals of `_process_final_response`. -/
structure FinalExtract where
  final_text : JValue

/-- Field extraction of `_process_final_response`
(`trace_processor.py` lines 307-308). -/
def extract_final_response (observation : JValue) : FinalExtract :=
  let final_response := dget observation "finalResponse" (.obj [])
  { final_text := dget final_response "text" (.str "") }

/-- Locals of `_process_reprompt`. -/
structure RepromptExtract where
  reprompt_text : JValue
  reprompt_source : JValue

/-- Field extraction of `_process_reprompt` (`trace_processor.py`
lines 328-330). -/
def extract_reprompt (observation : JValue) : RepromptExtract :=
  let reprompt := dget observation "repromptResponse" (.obj [])
  { reprompt_text := dget reprompt "text" (.str "")
  , reprompt_source := dget reprompt "source" (.str "") }

/-- Locals of `_process_postprocessing_trace`. -/
structure PostExtract where
  input_text : JValue
  output_text : JValue
  foundation_model : JValue
  usage : JValue

/-- Field extraction of `_process_postprocessing_trace`
(`trace_processor.py` lines 353-357 and the metadata reads), over the
`postProcessingTrace` object. -/
def extract_postprocessing (postprocessing : JValue) : PostExtract :=
  let model_input := dget postprocessing "modelInvocationInput" (.obj [])
  let model_output := dget postprocessing "modelInvocationOutput" (.obj [])
  { input_text := dget model_input "text" (.str "")
  , output_text := dget (dget model_output "parsedResponse" (.obj [])) "text" (.str "")
  , foundation_model := dget model_input "foundationModel" (.str "")
  , usage := dget (dget model_output "metadata" (.obj [])) "usage" (.obj []) }

/-- Locals of `_process_failure_trace`. -/
structure FailureExtract where
  failure_reason : JValue

/-- Field extraction of `_process_failure_trace` (`trace_processor.py`
lines 405-406), over the `failureTrace` object. -/
def extract_failure (failure : JValue) : FailureExtract :=
  { failure_reason := dget failure "failureReason" (.str "") }

/-! `processors/trace_processor.py`: the span synthesizers.  Every
operation in the model is total, so the `try`/`except` wrapper of
`process_trace_event` never fires and each handler is a plain event
list. -/

/-- Model of `_process_preprocessing_trace`. -/
def process_preprocessing_trace (trace_data : JValue) (session_id : String) (agent_name : JValue) : List SpanEvent :=
  if hasKey trace_data "preProcessingTrace" then
    let e := extract_preprocessing (dget trace_data "preProcessingTrace" .null)
    annotated .task "preprocessing-validation" session_id
      { input := e.prompt_text
      , output := .str ("Valid: " ++ pyStrOf e.is_valid ++ ", Rationale: " ++ pyStrOf e.rationaleText)
      , metadata := [("step", .str "preprocessing"), ("is_valid", e.is_valid),
                     ("foundation_model", e.foundation_model), ("usage", e.usage)]
      , tags := [("trace_type", .str "preprocessing"), ("agent_name", agent_name),
                 ("valid_input", .str (pyStrOf e.is_valid))] }
  else []

/-- Model of `_process_rationale`. -/
def process_rationale (orchestration : JValue) (session_id : String) (agent_id agent_name collaborator_name : JValue) : List SpanEvent :=
  if hasKey orchestration "rationale" then
    let rationale_text := (extract_rationale (dget orchestration "rationale" .null)).rationale_text
    annotated .agent ("reasoning-agent-" ++ pyStrOf agent_name) session_id
      { input := .str "Analyzing user input and determining next steps"
      , output := rationale_text
      , metadata := [("step", .str "reasoning"), ("reasoning_length", .num (pyLen rationale_text)),
                     ("agent_id", agent_id), ("collaborator", collaborator_name)]
      , tags := [("trace_type", .str "rationale"), ("agent_name", agent_name),
                 ("has_collaborator", .bool (pyTruthy collaborator_name))] }
  else []

/-- Model of `_process_action_group_input`. -/
def process_action_group_input (invocation_input : JValue) (session_id : String) (_agent_name : JValue) : List SpanEvent :=
  let e := extract_action_group_input invocation_input
  let params_str := if pyTruthy e.parameters then jdumps e.parameters else "No parameters"
  annotated .tool ("action-" ++ pyStrOf e.action_name) session_id
    { input := .str ("Calling " ++ pyStrOf e.verb ++ " " ++ pyStrOf e.api_path ++
                     " with parameters: " ++ params_str)
    , output := .str "Action group invocation initiated"
    , metadata := [("action_group_name", e.action_name), ("api_path", e.api_path),
                   ("verb", e.verb), ("parameters_count", .num (pyLen e.parameters)),
                   ("execution_type", e.execution_type)]
    , tags := [("trace_type", .str "action_input"), ("action_group", e.action_name),
               ("api_method", e.verb)] }

/-- Model of `_process_knowledge_base_input`. -/
def process_knowledge_base_input (invocation_input : JValue) (session_id : String) : List SpanEvent :=
  let e := extract_knowledge_base_input invocation_input
  let kb_id := e.kb_id
  let query_text := e.query_text
  annotated .retrieval "knowledge-base-query" session_id
    { input := query_text
    , output := .str "Knowledge base query initiated"
    , metadata := [("knowledge_base_id", kb_id), ("query_length", .num (pyLen query_text))]
    , tags := [("trace_type", .str "kb_input"), ("knowledge_base_id", kb_id)] }

/-- Model of `_process_collaborator_input`. -/
def process_collaborator_input (invocation_input : JValue) (session_id : String) : List SpanEvent :=
  let e := extract_collaborator_input invocation_input
  let collab_name := e.collab_name
  let input_text := e.input_text
  annotated .agent ("collaborator-" ++ pyStrOf collab_name) session_id
    { input := input_text
    , output := .str "Collaborator agent invocation initiated"
    , metadata := [("collaborator_name", collab_name),
                   ("collaborator_arn", e.collaborator_arn),
                   ("input_length", .num (pyLen input_text))]
    , tags := [("trace_type", .str "collaborator_input"), ("collaborator", collab_name)] }

/-- Model of `_process_invocation_input`: dispatch on the
`invocationType` discriminator; any other value falls through every
branch and produces nothing. -/
def process_invocation_input (orchestration : JValue) (session_id : String) (agent_name : JValue) : List SpanEvent :=
  match orchestration.getKey "invocationInput" with
  | none => []
  | some invocation_input =>
    match dget invocation_input "invocationType" (.str "") with
    | .str t =>
        if t = "ACTION_GROUP" then process_action_group_input invocation_input session_id agent_name
        else if t = "KNOWLEDGE_BASE" then process_knowledge_base_input invocation_input session_id
        else if t = "AGENT_COLLABORATOR" then process_collaborator_input invocation_input session_id
        else []
    | _ => []

/-- Model of `_process_action_group_output`, using
`format_response_for_display`; a non-string payload makes the formatter
raise internally and fall back to `str(...)` of the payload. -/
def process_action_group_output (observation : JValue) (session_id : String) : List SpanEvent :=
  let response_text := (extract_action_group_output observation).response_text
  let formatted_response :=
    match response_text with
    | .str t => format_response_for_display t
    | v => pyStrOf v
  annotated .tool "action-group-response" session_id
    { input := .str "Action group execution completed"
    , output := .str formatted_response
    , metadata := [("response_length", .num (pyStrOf response_text).length),
                   ("response_type", .str (if pyStartsWith (pyStrip (pyStrOf response_text)) "\x7b" then "json" else "text"))]
    , tags := [("trace_type", .str "action_output"), ("has_response", .bool (pyTruthy response_text))] }

/-- Model of `_process_knowledge_base_output`. -/
def process_knowledge_base_output (observation : JValue) (session_id : String) : List SpanEvent :=
  let e := extract_knowledge_base_output observation
  annotated .retrieval "knowledge-base-retrieval" session_id
    { input := .str "Knowledge base search completed"
    , output := .arr e.retrieved_docs
    , metadata := [("references_count", .num (pyLen e.references)),
                   ("total_content_length", .num e.all_text.length),
                   ("sources", .arr (e.retrieved_docs.map (fun doc => dget doc "source" .null)))]
    , tags := [("trace_type", .str "kb_output"),
               ("references_found", .str (toString (pyLen e.references)))] }

/-- Model of `_process_collaborator_output`. -/
def process_collaborator_output (observation : JValue) (session_id : String) : List SpanEvent :=
  let e := extract_collaborator_output observation
  let collab_name := e.collab_name
  let output_text := e.output_text
  annotated .agent ("collaborator-response-" ++ pyStrOf collab_name) session_id
    { input := .str ("Response from " ++ pyStrOf collab_name)
    , output := output_text
    , metadata := [("collaborator_name", collab_name), ("response_length", .num (pyLen output_text))]
    , tags := [("trace_type", .str "collaborator_output"), ("collaborator", collab_name)] }

/-- Model of `_process_final_response` (the `llm` span constructor's
`model_name`/`model_provider` arguments carry no claim content and are
not recorded in the log). -/
def process_final_response (observation : JValue) (session_id : String) : List SpanEvent :=
  let final_text := (extract_final_response observation).final_text
  annotated .llm "final-response-generator" session_id
    { input := .arr [.obj [("role", .str "system"), ("content", .str "Generate final response to user")]]
    , output := .arr [.obj [("role", .str "assistant"), ("content", final_text)]]
    , metadata := [("is_final", .bool true), ("response_length", .num (pyLen final_text))]
    , tags := [("trace_type", .str "final_response"), ("is_complete", .str "true")] }

/-- Model of `_process_reprompt`. -/
def process_reprompt (observation : JValue) (session_id : String) : List SpanEvent :=
  let e := extract_reprompt observation
  let reprompt_text := e.reprompt_text
  let reprompt_source := e.reprompt_source
  annotated .agent "clarification-agent" session_id
    { input := .str ("Reprompt needed from " ++ pyStrOf reprompt_source)
    , output := reprompt_text
    , metadata := [("reprompt_source", reprompt_source), ("requires_clarification", .bool true)]
    , tags := [("trace_type", .str "reprompt"), ("source", reprompt_source)] }

/-- Model of `_process_observation`: dispatch on the `type`
discriminator; any other value falls through every branch and produces
nothing. -/
def process_observation (orchestration : JValue) (session_id : String) (_agent_name : JValue) : List SpanEvent :=
  match orchestration.getKey "observation" with
  | none => []
  | some observation =>
    match dget observation "type" (.str "") with
    | .str t =>
        if t = "ACTION_GROUP" then process_action_group_output observation session_id
        else if t = "KNOWLEDGE_BASE" then process_knowledge_base_output observation session_id
        else if t = "AGENT_COLLABORATOR" then process_collaborator_output observation session_id
        else if t = "FINISH" then process_final_response observation session_id
        else if t = "REPROMPT" then process_reprompt observation session_id
        else []
    | _ => []

/-- Model of `_process_orchestration_trace`. -/
def process_orchestration_trace (trace_data : JValue) (session_id : String) (agent_id agent_name collaborator_name : JValue) : List SpanEvent :=
  if hasKey trace_data "orchestrationTrace" then
    let orchestration := dget trace_data "orchestrationTrace" .null
    process_rationale orchestration session_id agent_id agent_name collaborator_name
    ++ process_invocation_input orchestration session_id agent_name
    ++ process_observation orchestration session_id agent_name
  else []

/-- Model of `_process_postprocessing_trace`. -/
def process_postprocessing_trace (trace_data : JValue) (session_id : String) (agent_name : JValue) : List SpanEvent :=
  if hasKey trace_data "postProcessingTrace" then
    let e := extract_postprocessing (dget trace_data "postProcessingTrace" .null)
    annotated .task "response-postprocessing" session_id
      { input := e.input_text
      , output := e.output_text
      , metadata := [("step", .str "postprocessing"),
                     ("foundation_model", e.foundation_model),
                     ("usage", e.usage)]
      , tags := [("trace_type", .str "postprocessing"), ("agent_name", agent_name)] }
  else []

/-- Model of `_process_guardrail_trace`. -/
def process_guardrail_trace (trace_data : JValue) (session_id : String) : List SpanEvent :=
  if hasKey trace_data "guardrailTrace" then
    let e := extract_guardrail (dget trace_data "guardrailTrace" .null)
    annotated .task "guardrail-assessment" session_id
      { input := .str "Guardrail safety assessment"
      , output := .str ("Action taken: " ++ pyStrOf e.action)
      , metadata := [("guardrail_action", e.action),
                     ("intervention", .bool (jStrEq e.action "GUARDRAIL_INTERVENED")),
                     ("input_assessments", .num (pyLen e.input_assessments)),
                     ("output_assessments", .num (pyLen e.output_assessments))]
      , tags := [("trace_type", .str "guardrail"), ("action", e.action)] }
  else []

/-- Model of `_process_failure_trace`. -/
def process_failure_trace (trace_data : JValue) (session_id : String) : List SpanEvent :=
  if hasKey trace_data "failureTrace" then
    let failure_reason := (extract_failure (dget trace_data "failureTrace" .null)).failure_reason
    annotated .task "error-handler" session_id
      { input := .str "Processing failed"
      , output := .str ("Failure: " ++ pyStrOf failure_reason)
      , metadata := [("failed", .bool true), ("failure_reason", failure_reason)]
      , tags := [("trace_type", .str "failure"), ("error", .str "true")] }
  else []

/-- Model of `TraceProcessor.process_trace_event`: the five stage
handlers are invoked one after another, unconditionally and
independently; each checks for its own stage key. -/
def process_trace_event (trace_event : JValue) (session_id : String) : List SpanEvent :=
  let agent_id := dget trace_event "agentId" (.str "unknown")
  let agent_name := dget trace_event "agentName" (.str "unknown")
  let collaborator_name := dget trace_event "collaboratorName" (.str "")
  let trace_data := dget trace_event "trace" (.obj [])
  process_preprocessing_trace trace_data session_id agent_name
  ++ process_orchestration_trace trace_data session_id agent_id agent_name collaborator_name
  ++ process_postprocessing_trace trace_data session_id agent_name
  ++ process_guardrail_trace trace_data session_id
  ++ process_failure_trace trace_data session_id

/-! `dd_eval.py`: the similarity scorer `sim`.  It lowercases, collapses
whitespace runs (`re.sub(r"\s+"," ",...)`), strips, and takes
`difflib.SequenceMatcher(None, ...)` with default `autojunk=True`.  The
matcher is embedded below exactly as in CPython's `difflib`
(`__chain_b` popularity filtering, the `j2len` dynamic program with its
`continue`/`break` clipping, the four extension loops, the
`get_matching_blocks` recursion); with `isjunk=None` the junk set is
empty, which the constant-false `noJunk` predicate records.  Loops
become fuel-based recursions whose call-site fuel provably exceeds the
iteration count.  Float arithmetic (`2.0*M/T`, `round(x, 2)`) is
modelled by exact rationals with Python's round-half-to-even. -/

/-- Model of Python `str.lower()` (ASCII; the repository's data has no
cased characters beyond ASCII). -/
def pyLower (s : String) : String := ⟨s.data.map Char.toLower⟩

/-- Model of `re.sub(r"\s+", " ", s)`: each maximal whitespace run
becomes a single space.  The flag records whether the previous character
was inside a run. -/
def collapseWsGo : List Char → Bool → List Char
  | [], _ => []
  | c :: cs, inRun =>
    if pyIsSpace c then
      (if inRun then collapseWsGo cs true else ' ' :: collapseWsGo cs true)
    else c :: collapseWsGo cs false

/-- Whitespace-run collapse on a string. -/
def collapseWs (s : String) : String := ⟨collapseWsGo s.data false⟩

/-- The normalization `re.sub(r"\s+"," ", s.lower())` applied to each
argument of `sim`. -/
def normText (s : String) : String := collapseWs (pyLower s)

/-- Placeholder character for out-of-range indexing (never reached under
the index bounds maintained by the matcher). -/
def nullChar : Char := Char.ofNat 0

/-- All positions of `c` in `b`, ascending — an entry of the `b2j`
mapping before junk/popularity filtering. -/
def positionsOf (b : List Char) (c : Char) : List Nat :=
  (List.range b.length).filter (fun j => decide (b.getD j nullChar = c))

/-- Occurrence count of `c` in `b` (the `len(idxs)` of `__chain_b`). -/
def charCount (b : List Char) (c : Char) : Nat := (positionsOf b c).length

/-- The `autojunk` popularity rule of `__chain_b`: for `len(b) >= 200`,
elements occurring more than `len(b) // 100 + 1` times are dropped from
`b2j`. -/
def isPopular (b : List Char) (c : Char) : Bool :=
  decide (200 ≤ b.length) && decide (b.length / 100 + 1 < charCount b c)

/-- The `b2j` mapping after popularity filtering. -/
def b2j (b : List Char) (c : Char) : List Nat :=
  if isPopular b c then [] else positionsOf b c

/-- The junk predicate `self.bjunk.__contains__` for `isjunk=None`: the
junk set is empty. -/
def noJunk : Char → Bool := fun _ => false

/-- The running best match `(besti, bestj, bestsize)` of
`find_longest_match`. -/
structure BestM where
  besti : Nat
  bestj : Nat
  bestsize : Nat
  deriving DecidableEq, Repr

/-- Inner loop of `find_longest_match` over `b2j.get(a[i], nothing)`:
`j < blo` is `continue`, `j >= bhi` is `break`; each visited `j` writes
`newj2len[j] = j2len.get(j-1, 0) + 1` and updates the best on a strict
improvement. -/
def rowStep (j2lenOld : Nat → Nat) (i blo bhi : Nat) : List Nat → (Nat → Nat) → BestM → ((Nat → Nat) × BestM)
  | [], newj2len, best => (newj2len, best)
  | j :: js, newj2len, best =>
    if j < blo then rowStep j2lenOld i blo bhi js newj2len best
    else if bhi ≤ j then (newj2len, best)
    else
      let k := (if j = 0 then 0 else j2lenOld (j - 1)) + 1
      let newj2len' : Nat → Nat := fun j' => if j' = j then k else newj2len j'
      let best' : BestM := if best.bestsize < k then ⟨i + 1 - k, j + 1 - k, k⟩ else best
      rowStep j2lenOld i blo bhi js newj2len' best'

/-- Outer loop of `find_longest_match` over `range(alo, ahi)`; each row
starts from a fresh `newj2len`. -/
def dpLoop (a b : List Char) (blo bhi : Nat) : List Nat → (Nat → Nat) → BestM → BestM
  | [], _, best => best
  | i :: is, j2len, best =>
    let st := rowStep j2len i blo bhi (b2j b (a.getD i nullChar)) (fun _ => 0) best
    dpLoop a b blo bhi is st.1 st.2

/-- The dynamic-programming part of `find_longest_match`, before the
extension loops. -/
def dpBest (a b : List Char) (alo ahi blo bhi : Nat) : BestM :=
  dpLoop a b blo bhi (List.range' alo (ahi - alo)) (fun _ => 0) ⟨alo, blo, 0⟩

/-- First extension loop: grow the match downwards over non-junk equal
elements.  `fuel` bounds the iterations; `besti` many always suffice
since `besti` decreases towards `alo`. -/
def extendLo (a b : List Char) (junk : Char → Bool) (alo blo : Nat) : Nat → BestM → BestM
  | 0, best => best
  | fuel + 1, best =>
    if alo < best.besti ∧ blo < best.bestj ∧
       junk (b.getD (best.bestj - 1) nullChar) = false ∧
       a.getD (best.besti - 1) nullChar = b.getD (best.bestj - 1) nullChar then
      extendLo a b junk alo blo fuel ⟨best.besti - 1, best.bestj - 1, best.bestsize + 1⟩
    else best

/-- Second extension loop: grow the match upwards over non-junk equal
elements. -/
def extendHi (a b : List Char) (junk : Char → Bool) (ahi bhi : Nat) : Nat → BestM → BestM
  | 0, best => best
  | fuel + 1, best =>
    if best.besti + best.bestsize < ahi ∧ best.bestj + best.bestsize < bhi ∧
       junk (b.getD (best.bestj + best.bestsize) nullChar) = false ∧
       a.getD (best.besti + best.bestsize) nullChar = b.getD (best.bestj + best.bestsize) nullChar then
      extendHi a b junk ahi bhi fuel ⟨best.besti, best.bestj, best.bestsize + 1⟩
    else best

/-- Third extension loop: grow downwards over junk equal elements (a
no-op here since the junk set is empty). -/
def extendLoJunk (a b : List Char) (junk : Char → Bool) (alo blo : Nat) : Nat → BestM → BestM
  | 0, best => best
  | fuel + 1, best =>
    if alo < best.besti ∧ blo < best.bestj ∧
       junk (b.getD (best.bestj - 1) nullChar) = true ∧
       a.getD (best.besti - 1) nullChar = b.getD (best.bestj - 1) nullChar then
      extendLoJunk a b junk alo blo fuel ⟨best.besti - 1, best.bestj - 1, best.bestsize + 1⟩
    else best

/-- Fourth extension loop: grow upwards over junk equal elements (a
no-op here since the junk set is empty). -/
def extendHiJunk (a b : List Char) (junk : Char → Bool) (ahi bhi : Nat) : Nat → BestM → BestM
  | 0, best => best
  | fuel + 1, best =>
    if best.besti + best.bestsize < ahi ∧ best.bestj + best.bestsize < bhi ∧
       junk (b.getD (best.bestj + best.bestsize) nullChar) = true ∧
       a.getD (best.besti + best.bestsize) nullChar = b.getD (best.bestj + best.bestsize) nullChar then
      extendHiJunk a b junk ahi bhi fuel ⟨best.besti, best.bestj, best.bestsize + 1⟩
    else best

/-- Model of `SequenceMatcher.find_longest_match` for `isjunk=None`:
the dynamic program followed by the four extension loops. -/
def findLongestMatch (a b : List Char) (alo ahi blo bhi : Nat) : BestM :=
  let best0 := dpBest a b alo ahi blo bhi
  let best1 := extendLo a b noJunk alo blo best0.besti best0
  let best2 := extendHi a b noJunk ahi bhi (ahi + bhi + 1) best1
  let best3 := extendLoJunk a b noJunk alo blo best2.besti best2
  extendHiJunk a b noJunk ahi bhi (ahi + bhi + 1) best3

/-- Sum of the matching-block sizes of `get_matching_blocks`, written as
the recursion that the source's explicit queue implements (the queue
order and the final sort/adjacent-merge do not change the sum).  `fuel`
strictly exceeds `(ahi - alo) + (bhi - blo)` at the call site, which
bounds the recursion depth. -/
def matchesTotal (a b : List Char) : Nat → Nat → Nat → Nat → Nat → Nat
  | 0, _, _, _, _ => 0
  | fuel + 1, alo, ahi, blo, bhi =>
    let m := findLongestMatch a b alo ahi blo bhi
    if m.bestsize = 0 then 0
    else
      m.bestsize
      + (if alo < m.besti ∧ blo < m.bestj then
           matchesTotal a b fuel alo m.besti blo m.bestj else 0)
      + (if m.besti + m.bestsize < ahi ∧ m.bestj + m.bestsize < bhi then
           matchesTotal a b fuel (m.besti + m.bestsize) ahi (m.bestj + m.bestsize) bhi else 0)

/-- Model of `SequenceMatcher.ratio` (with `_calculate_ratio`'s `1.0`
for two empty sequences), as an exact rational. -/
def seqRatio (a b : List Char) : ℚ :=
  let m := matchesTotal a b (a.length + b.length + 1) 0 a.length 0 b.length
  if a.length + b.length = 0 then 1
  else (2 * m : ℚ) / ((a.length : ℚ) + (b.length : ℚ))

/-- Python's `round` to an integer: round half to even. -/
def pyRound (q : ℚ) : ℤ :=
  let f := ⌊q⌋
  let r := q - f
  if r < 1 / 2 then f
  else if 1 / 2 < r then f + 1
  else if f % 2 = 0 then f else f + 1

/-- Python's `round(x, 2)` on the idealized real value. -/
def round2 (q : ℚ) : ℚ := (pyRound (q * 100) : ℚ) / 100

/-- Model of `sim` (`dd_eval.py` lines 59-62): `0` when either raw
argument is empty; otherwise the rounded percentage ratio of the
normalized, stripped strings. -/
def sim (a b : String) : ℚ :=
  if a = "" ∨ b = "" then 0
  else round2 (seqRatio (pyStrip (normText a)).data (pyStrip (normText b)).data * 100)

/-- Model of `grade` (`dd_eval.py` line 64). -/
def grade (s : ℚ) : String :=
  if 80 ≤ s then "excellent" else if 60 ≤ s then "good" else if 40 ≤ s then "fair" else "poor"

/-! `dd_eval.py`: the duplicate `process_trace_event` (lines 72-281) and
`evaluate` (lines 284-312).  This copy handles only the preProcessing,
orchestration and guardrail stages — it has no postProcessing or failure
handler — and within observations only the ACTION_GROUP,
AGENT_COLLABORATOR and FINISH types.  It is modelled with `Eff` so that
an exception raised by an `annotate` call (the scoped-release scenario
of the spec) closes the enclosing span scope and skips the rest of the
body until the function-level `except`. -/

/-- The rebinding of `response_text` by the ACTION_GROUP observation
formatter of `dd_eval.py` (line 205): on a successful unquoting parse the
local now holds the parse result, otherwise it is unchanged. -/
def ddEvalReboundText (response_text : String) : JValue :=
  if pyStartsWith response_text "\"" ∧ pyEndsWith response_text "\"" then
    match loads response_text with
    | some v => v
    | none => .str response_text
  else .str response_text

/-- The `formatted_response` computed by `dd_eval.py` lines 203-209.
Because the unquoting step rebinds `response_text`, the `except` path
after a successful unquote yields the unquoted string, not the original
one. -/
def ddEvalFormatActionResponse (response_text : String) : String :=
  match ddEvalReboundText response_text with
  | .str t =>
      if pyStartsWith (pyStrip t) "\x7b" then
        match loads t with
        | some (.obj fs) => jdumps (.obj fs)
        | some _ => t
        | none => t
      else t
  | .obj fs => jdumps (.obj fs)
  | v => pyStrOf v

/-- The exception raised by the flagged `annotate` call in the
scoped-release scenario. -/
def ddAnnRaise : PyExn := ⟨"Exception", "annotate failed"⟩

/-- Model of `dd_eval.process_trace_event`.  `finishRaises` injects an
exception into the `annotate` call of the FINISH-observation span (the
spec's scoped-release scenario); the function-level `except` absorbs any
propagating exception. -/
def ddEval_process_trace_event (finishRaises : Bool) (trace_event : JValue) (session_id : String) : List SpanEvent :=
  let agent_id := dget trace_event "agentId" (.str "unknown")
  let agent_name := dget trace_event "agentName" (.str "unknown")
  let collaborator_name := dget trace_event "collaboratorName" (.str "")
  let trace_data := dget trace_event "trace" (.obj [])
  let pre : Eff :=
    if hasKey trace_data "preProcessingTrace" then
      let e := extract_preprocessing (dget trace_data "preProcessingTrace" .null)
      effScope .task "preprocessing-validation" session_id (effAnn
        { input := e.prompt_text
        , output := .str ("Valid: " ++ pyStrOf e.is_valid ++ ", Rationale: " ++ pyStrOf e.rationaleText)
        , metadata := [("step", .str "preprocessing"), ("is_valid", e.is_valid),
                       ("foundation_model", e.foundation_model), ("usage", e.usage)]
        , tags := [("trace_type", .str "preprocessing"), ("agent_name", agent_name),
                   ("valid_input", .str (pyStrOf e.is_valid))] })
    else effPure
  let orch : Eff :=
    if hasKey trace_data "orchestrationTrace" then
      let orchestration := dget trace_data "orchestrationTrace" .null
      let rat : Eff :=
        if hasKey orchestration "rationale" then
          let rationale_text := dget (dget orchestration "rationale" .null) "text" (.str "")
          effScope .agent ("reasoning-agent-" ++ pyStrOf agent_name) session_id (effAnn
            { input := .str "Analyzing user input and determining next steps"
            , output := rationale_text
            , metadata := [("step", .str "reasoning"), ("reasoning_length", .num (pyLen rationale_text)),
                           ("agent_id", agent_id), ("collaborator", collaborator_name)]
            , tags := [("trace_type", .str "rationale"), ("agent_name", agent_name),
                       ("has_collaborator", .bool (pyTruthy collaborator_name))] })
        else effPure
      let inv : Eff :=
        match orchestration.getKey "invocationInput" with
        | none => effPure
        | some invocation_input =>
          match dget invocation_input "invocationType" (.str "") with
          | .str t =>
            if t = "ACTION_GROUP" then
              let e := extract_action_group_input invocation_input
              let params_str := if pyTruthy e.parameters then jdumps e.parameters else "No parameters"
              effScope .tool ("action-" ++ pyStrOf e.action_name) session_id (effAnn
                { input := .str ("Calling " ++ pyStrOf e.verb ++ " " ++ pyStrOf e.api_path ++
                                 " with parameters: " ++ params_str)
                , output := .str "Action group invocation initiated"
                , metadata := [("action_group_name", e.action_name), ("api_path", e.api_path),
                               ("verb", e.verb), ("parameters_count", .num (pyLen e.parameters)),
                               ("execution_type", e.execution_type)]
                , tags := [("trace_type", .str "action_input"), ("action_group", e.action_name),
                           ("api_method", e.verb)] })
            else if t = "KNOWLEDGE_BASE" then
              let kb_input := dget invocation_input "knowledgeBaseLookupInput" (.obj [])
              let kb_id := dget kb_input "knowledgeBaseId" (.str "")
              let query_text := dget kb_input "text" (.str "")
              effScope .retrieval "knowledge-base-query" session_id (effAnn
                { input := query_text
                , output := .str "Knowledge base query initiated"
                , metadata := [("knowledge_base_id", kb_id), ("query_length", .num (pyLen query_text))]
                , tags := [("trace_type", .str "kb_input"), ("knowledge_base_id", kb_id)] })
            else if t = "AGENT_COLLABORATOR" then
              let collab_input := dget invocation_input "agentCollaboratorInvocationInput" (.obj [])
              let collab_name := dget collab_input "agentCollaboratorName" (.str "")
              let input_text := dget (dget collab_input "input" (.obj [])) "text" (.str "")
              effScope .agent ("collaborator-" ++ pyStrOf collab_name) session_id (effAnn
                { input := input_text
                , output := .str "Collaborator agent invocation initiated"
                , metadata := [("collaborator_name", collab_name),
                               ("collaborator_arn", dget collab_input "agentCollaboratorAliasArn" (.str "")),
                               ("input_length", .num (pyLen input_text))]
                , tags := [("trace_type", .str "collaborator_input"), ("collaborator", collab_name),
                           ("span_type", .str "agent")] })
            else effPure
          | _ => effPure
      let obs : Eff :=
        match orchestration.getKey "observation" with
        | none => effPure
        | some observation =>
          match dget observation "type" (.str "") with
          | .str t =>
            if t = "ACTION_GROUP" then
              let action_output := dget observation "actionGroupInvocationOutput" (.obj [])
              let response_text0 := dget action_output "text" (.str "")
              let rebound := match response_text0 with
                | .str s => ddEvalReboundText s
                | v => v
              let formatted_response := match response_text0 with
                | .str s => ddEvalFormatActionResponse s
                | v => pyStrOf v
              effScope .tool "action-group-response" session_id (effAnn
                { input := .str "Action group execution completed"
                , output := .str formatted_response
                , metadata := [("response_length", .num (pyStrOf rebound).length),
                               ("response_type", .str (if pyStartsWith (pyStrip (pyStrOf rebound)) "\x7b" then "json" else "text"))]
                , tags := [("trace_type", .str "action_output"), ("has_response", .bool (pyTruthy rebound))] })
            else if t = "AGENT_COLLABORATOR" then
              let collab_output := dget observation "agentCollaboratorInvocationOutput" (.obj [])
              let collab_name := dget collab_output "agentCollaboratorName" (.str "")
              let output_text := dget (dget collab_output "output" (.obj [])) "text" (.str "")
              effScope .agent ("collaborator-response-" ++ pyStrOf collab_name) session_id (effAnn
                { input := .str ("Response from " ++ pyStrOf collab_name)
                , output := output_text
                , metadata := [("collaborator_name", collab_name), ("response_length", .num (pyLen output_text))]
                , tags := [("trace_type", .str "collaborator_output"), ("collaborator", collab_name),
                           ("span_type", .str "agent")] })
            else if t = "FINISH" then
              let final_text := dget (dget observation "finalResponse" (.obj [])) "text" (.str "")
              effScope .llm "final-response-generator" session_id
                (if finishRaises then ([], some ddAnnRaise)
                 else effAnn
                  { input := .arr [.obj [("role", .str "system"), ("content", .str "Generate final response to user")]]
                  , output := .arr [.obj [("role", .str "assistant"), ("content", final_text)]]
                  , metadata := [("is_final", .bool true), ("response_length", .num (pyLen final_text))]
                  , tags := [("trace_type", .str "final_response"), ("is_complete", .str "true")] })
            else effPure
          | _ => effPure
      effSeq rat (effSeq inv obs)
    else effPure
  let guard : Eff :=
    if hasKey trace_data "guardrailTrace" then
      let e := extract_guardrail (dget trace_data "guardrailTrace" .null)
      effScope .task "guardrail-assessment" session_id (effAnn
        { input := .str "Guardrail safety assessment"
        , output := .str ("Action taken: " ++ pyStrOf e.action)
        , metadata := [("guardrail_action", e.action),
                       ("intervention", .bool (jStrEq e.action "GUARDRAIL_INTERVENED")),
                       ("input_assessments", .num (pyLen e.input_assessments)),
                       ("output_assessments", .num (pyLen e.output_assessments))]
        , tags := [("trace_type", .str "guardrail"), ("action", e.action)] })
    else effPure
  (effSeq pre (effSeq orch guard)).1

/-- Model of `dd_eval.evaluate` (lines 284-312): the root spans and the
per-event loop.  The loop passes the *whole* completion event `ev` to
`process_trace_event` (line 302), exactly as the source does. -/
def dd_evaluate (agent_id sid q expect : String) (events : List JValue) (finishRaises : Bool) : List SpanEvent :=
  let answer := events.foldl (fun acc ev =>
      if hasKey ev "chunk" then
        acc ++ asStrD (dget (dget ev "chunk" .null) "bytes" (.str "")) ""
      else acc) ""
  let innerEvents := events.foldl (fun acc ev =>
      if hasKey ev "chunk" then acc
      else if hasKey ev "trace" then acc ++ ddEval_process_trace_event finishRaises ev sid
      else acc) []
  let sc := sim answer expect
  (effScope .task "workflow" sid
    (effSeq
      (effScope .agent ("bedrock:" ++ agent_id) sid
        ((innerEvents, none) |> fun body =>
          effSeq body (effAnn { input := .str q, output := .str answer, metadata := [], tags := [] })))
      (effSeq
        (effAnn { input := .str q, output := .str answer, metadata := [], tags := [] })
        (effAnn { input := .str "eval", output := .str (toString sc ++ " " ++ grade sc)
                , metadata := [("similarity", .str (toString sc)), ("quality", .str (grade sc))]
                , tags := [] })))).1

/-! `orchestrators/agent_orchestrator.py`: the trace walker.  The
external `invoke_agent` collaborator is abstracted as an `AgentCall`:
either the invocation itself raises, or it yields a finite completion
stream that may raise after a prefix of events. -/

/-- How consuming the completion stream ends. -/
inductive StreamTail where
  | done
  | raiseMid (e : PyExn)

/-- Outcome of the external `invoke_agent` call. -/
inductive AgentCall where
  | callRaises (e : PyExn)
  | callOk (events : List JValue) (tail : StreamTail)

/-- Option-to-JValue conversion for metadata values that may be `None`. -/
def optStrJ : Option String → JValue
  | some s => .str s
  | none => .null

/-- The initial workflow annotation of `ask_agent_with_traces`
(lines 46-57). -/
def workflowStartAnn (question : String) (expected : Option String) : AnnPayload :=
  { input := .str question
  , output := .str "Starting Bedrock agent processing"
  , metadata := [("workflow_start", .bool true), ("expected_answer", optStrJ expected)]
  , tags := [("workflow", .str "bedrock_agent"), ("language", .str "hebrew")] }

/-- The error annotation of the `except` clause of
`ask_agent_with_traces` (lines 116-127): error tag, exception message
and exception type name, placed on the still-open workflow span. -/
def errorAnn (question : String) (e : PyExn) : AnnPayload :=
  { input := .str question
  , output := .str ("Error: " ++ e.msg)
  , metadata := [("error", .str e.msg), ("error_type", .str e.ty)]
  , tags := [("error", .str "true"), ("workflow", .str "failed")] }

/-- The completion-stream loop of `ask_agent_with_traces` (lines 69-80):
chunks accumulate into the answer, trace events go through the
`TraceProcessor`. -/
def consumeEvents (session_id : String) (events : List JValue) : String × List SpanEvent :=
  events.foldl (fun (st : String × List SpanEvent) event =>
    if hasKey event "chunk" then
      let chunk := dget event "chunk" .null
      if hasKey chunk "bytes" then
        (st.1 ++ asStrD (dget chunk "bytes" .null) "", st.2)
      else st
    else if hasKey event "trace" then
      (st.1, st.2 ++ process_trace_event (dget event "trace" .null) session_id)
    else st) ("", [])

/-- Model of `AgentOrchestrator.ask_agent_with_traces`.  Returns the
response (`none` on failure) and the backend event log.  The `with
workflow:` scope encloses a `try` whose `except` annotates the error and
returns `None`; the nested `with agent:` scope closes before the
`except` body runs when the stream raises mid-consumption. -/
def ask_agent_with_traces (question : String) (expected : Option String) (agent_id session_id : String) (call : AgentCall) : Option String × List SpanEvent :=
  let wfOpen := SpanEvent.openSpan .workflow "bedrock-agent-workflow" session_id
  let wfClose := SpanEvent.closeSpan .workflow "bedrock-agent-workflow"
  let agOpen := SpanEvent.openSpan .agent ("bedrock-agent-" ++ agent_id) session_id
  let agClose := SpanEvent.closeSpan .agent ("bedrock-agent-" ++ agent_id)
  let startAnn := SpanEvent.annEvent (workflowStartAnn question expected)
  match call with
  | .callRaises e =>
      (none, [wfOpen, startAnn, agOpen, agClose, .annEvent (errorAnn question e), wfClose])
  | .callOk events tail =>
      let st := consumeEvents session_id events
      match tail with
      | .raiseMid e =>
          (none, [wfOpen, startAnn, agOpen] ++ st.2 ++
                 [agClose, .annEvent (errorAnn question e), wfClose])
      | .done =>
          let output := st.1
          let trace_count := events.countP (fun ev => hasKey ev "trace")
          let chunks := extract_chunks_from_trace (events.filterMap (fun ev =>
            if hasKey ev "trace" then some (.obj [("trace", dget ev "trace" (.obj []))]) else none))
          let resAnn := SpanEvent.annEvent
            { input := .arr [.obj [("role", .str "user"), ("content", .str question)]]
            , output := .arr [.obj [("role", .str "assistant"), ("content", .str output)]]
            , metadata := [("total_trace_events", .num trace_count),
                           ("response_length", .num output.length),
                           ("chunks_extracted", .num chunks.length),
                           ("expected_answer", optStrJ expected),
                           ("agent_id", .str agent_id), ("session_id", .str session_id)]
            , tags := [("agent_type", .str "bedrock_supervisor"),
                       ("trace_events_count", .str (toString trace_count)),
                       ("has_output", .str (if output = "" then "False" else "True"))] }
          (if output = "" then none else some (pyStrip output),
           [wfOpen, startAnn, agOpen] ++ st.2 ++ [resAnn, agClose, wfClose])

/-! `models/question.py`, `models/test_result.py` and
`runners/test_runner.py`.  Wall-clock time (`time.time()`,
`datetime.now()`) is an external oracle, passed in as parameters. -/

/-- A `datetime.datetime` value. -/
structure PyDateTime where
  year : Nat
  month : Nat
  day : Nat
  hour : Nat
  minute : Nat
  second : Nat
  microsecond : Nat
  deriving DecidableEq, Repr

/-- Decimal digit character. -/
def digitChar (n : Nat) : Char := Char.ofNat (48 + n)

/-- Two-digit zero-padded rendering. -/
def pad2chars (n : Nat) : List Char := [digitChar (n / 10 % 10), digitChar (n % 10)]

/-- Four-digit zero-padded rendering. -/
def pad4chars (n : Nat) : List Char :=
  [digitChar (n / 1000 % 10), digitChar (n / 100 % 10), digitChar (n / 10 % 10), digitChar (n % 10)]

/-- Six-digit zero-padded rendering. -/
def pad6chars (n : Nat) : List Char :=
  [digitChar (n / 100000 % 10), digitChar (n / 10000 % 10), digitChar (n / 1000 % 10),
   digitChar (n / 100 % 10), digitChar (n / 10 % 10), digitChar (n % 10)]

/-- Characters of `datetime.isoformat()`: `YYYY-MM-DDTHH:MM:SS`, with
`.ffffff` appended exactly when the microsecond field is nonzero. -/
def isoChars (t : PyDateTime) : List Char :=
  pad4chars t.year ++ '-' :: pad2chars t.month ++ '-' :: pad2chars t.day ++
  'T' :: pad2chars t.hour ++ ':' :: pad2chars t.minute ++ ':' :: pad2chars t.second ++
  (if t.microsecond = 0 then [] else '.' :: pad6chars t.microsecond)

/-- Model of `datetime.isoformat()`. -/
def PyDateTime.isoformat (t : PyDateTime) : String := ⟨isoChars t⟩

/-- Decimal digit value of a character. -/
def digitVal (c : Char) : Option Nat :=
  if '0' ≤ c ∧ c ≤ '9' then some (c.toNat - 48) else none

/-- Read two decimal digits. -/
def read2 : List Char → Option (Nat × List Char)
  | c1 :: c2 :: rest =>
      match digitVal c1, digitVal c2 with
      | some a, some b => some (a * 10 + b, rest)
      | _, _ => none
  | _ => none

/-- Read four decimal digits. -/
def read4 : List Char → Option (Nat × List Char)
  | c1 :: c2 :: c3 :: c4 :: rest =>
      match digitVal c1, digitVal c2, digitVal c3, digitVal c4 with
      | some a, some b, some c, some d => some (a * 1000 + b * 100 + c * 10 + d, rest)
      | _, _, _, _ => none
  | _ => none

/-- Expect one literal character. -/
def expectChar (c : Char) : List Char → Option (List Char)
  | c' :: rest => if c' = c then some rest else none
  | _ => none

/-- Leap-year rule of the proleptic Gregorian calendar. -/
def isLeap (y : Nat) : Bool := decide ((y % 4 = 0 ∧ y % 100 ≠ 0) ∨ y % 400 = 0)

/-- Length of a month. -/
def daysInMonth (y m : Nat) : Nat :=
  if m = 2 then (if isLeap y then 29 else 28)
  else if m = 4 ∨ m = 6 ∨ m = 9 ∨ m = 11 then 30 else 31

/-- Field bounds enforced by the `datetime` constructor. -/
def PyDateTime.valid (t : PyDateTime) : Bool :=
  decide (1 ≤ t.year) && decide (t.year ≤ 9999) &&
  decide (1 ≤ t.month) && decide (t.month ≤ 12) &&
  decide (1 ≤ t.day) && decide (t.day ≤ daysInMonth t.year t.month) &&
  decide (t.hour ≤ 23) && decide (t.minute ≤ 59) && decide (t.second ≤ 59) &&
  decide (t.microsecond ≤ 999999)

/-- Positional parse of the `isoformat` output shape. -/
def parseIso (cs : List Char) : Option PyDateTime := do
  let (y, cs1) ← read4 cs
  let cs2 ← expectChar '-' cs1
  let (mo, cs3) ← read2 cs2
  let cs4 ← expectChar '-' cs3
  let (d, cs5) ← read2 cs4
  let cs6 ← expectChar 'T' cs5
  let (h, cs7) ← read2 cs6
  let cs8 ← expectChar ':' cs7
  let (mi, cs9) ← read2 cs8
  let cs10 ← expectChar ':' cs9
  let (s, cs11) ← read2 cs10
  match cs11 with
  | [] => some ⟨y, mo, d, h, mi, s, 0⟩
  | '.' :: us =>
      match us with
      | [u1, u2, u3, u4, u5, u6] =>
          match digitVal u1, digitVal u2, digitVal u3, digitVal u4, digitVal u5, digitVal u6 with
          | some a, some b, some c, some dd, some e, some f =>
              some ⟨y, mo, d, h, mi, s,
                    a * 100000 + b * 10000 + c * 1000 + dd * 100 + e * 10 + f⟩
          | _, _, _, _, _, _ => none
      | _ => none
  | _ => none

/-- Model of `datetime.fromisoformat` on the shapes `isoformat` emits,
including the constructor's range validation. -/
def PyDateTime.fromisoformat (s : String) : Option PyDateTime :=
  match parseIso s.data with
  | some t => if t.valid then some t else none
  | none => none

/-- The `Question` dataclass (`models/question.py`). -/
structure Question where
  question : String
  expected : Option String
  language : String
  deriving DecidableEq, Repr

/-- Optional-string view of a dict value (`None` → `none`; the inputs
hold strings wherever the sources expect them). -/
def asStrOpt (v : JValue) : Option String :=
  match v with
  | .str s => some s
  | _ => none

/-- Model of `Question.from_dict` followed by `__post_init__`
(`models/question.py`): an empty or all-whitespace question text raises
`ValueError`. -/
def Question.from_dict (data : JValue) : Except PyExn Question :=
  let q := asStrD (dget data "question" (.str "")) ""
  if pyStrip q = "" then .error ⟨"ValueError", "Question cannot be empty"⟩
  else .ok ⟨q, asStrOpt (dget data "expected" .null), asStrD (dget data "language" (.str "hebrew")) "hebrew"⟩

/-- The `TestResult` dataclass after `__post_init__` (timestamp always
set). -/
structure TestResult where
  question : String
  response : Option String
  expected : Option String
  duration : ℚ
  success : Bool
  error_message : Option String
  timestamp : PyDateTime
  deriving DecidableEq, Repr

/-- The dictionary produced by `TestResult.to_dict` (all seven keys are
always present; the timestamp is serialized). -/
structure TRDict where
  question : String
  response : Option String
  expected : Option String
  duration : ℚ
  success : Bool
  error_message : Option String
  timestamp : String
  deriving DecidableEq, Repr

/-- Model of `TestResult.to_dict`. -/
def TestResult.to_dict (r : TestResult) : TRDict :=
  ⟨r.question, r.response, r.expected, r.duration, r.success, r.error_message,
   r.timestamp.isoformat⟩

/-- Model of `TestResult.from_dict` followed by `__post_init__`: an
empty timestamp string gives `None`, which `__post_init__` replaces by
`datetime.now()` (the `now` parameter). -/
def TestResult.from_dict (data : TRDict) (now : PyDateTime) : TestResult :=
  let ts : Option PyDateTime :=
    if data.timestamp = "" then none else PyDateTime.fromisoformat data.timestamp
  { question := data.question
  , response := data.response
  , expected := data.expected
  , duration := data.duration
  , success := data.success
  , error_message := data.error_message
  , timestamp := ts.getD now }

/-- Model of `TestRunner._run_single_test`: success is `response is not
None`; a `None` response records the fixed message.  (The orchestrator
model absorbs every stream exception, so the `except` clause of
`_run_single_test` is unreachable here.) -/
def run_single_test (q : Question) (dur : ℚ) (now : PyDateTime) (agent_id session_id : String) (call : AgentCall) : TestResult :=
  let response := (ask_agent_with_traces q.question q.expected agent_id session_id call).1
  { question := q.question
  , response := response
  , expected := q.expected
  , duration := dur
  , success := response.isSome
  , error_message := if response.isSome then none else some "No response received"
  , timestamp := now }

/-- Loop of `TestRunner.run_test_suite`: parse each record (a raising
`Question.__post_init__` aborts the whole suite), run it, count
successes. -/
def suiteGo (durs : Nat → ℚ) (nows : Nat → PyDateTime) (agent_id : String) (sids : Nat → String) (calls : Nat → AgentCall) : List JValue → Nat → List TestResult → Nat → Except PyExn (List TestResult × Nat)
  | [], _, acc, succ => .ok (acc.reverse, succ)
  | r :: rest, i, acc, succ =>
      match Question.from_dict r with
      | .error e => .error e
      | .ok q =>
        let res := run_single_test q (durs i) (nows i) agent_id (sids i) (calls i)
        suiteGo durs nows agent_id sids calls rest (i + 1) (res :: acc)
          (succ + (if res.success then 1 else 0))

/-- Model of `TestRunner.run_test_suite` on a fresh runner: the result
list and the `successful_calls` counter of the summary. -/
def run_test_suite (questions : List JValue) (durs : Nat → ℚ) (nows : Nat → PyDateTime) (agent_id : String) (sids : Nat → String) (calls : Nat → AgentCall) : Except PyExn (List TestResult × Nat) :=
  suiteGo durs nows agent_id sids calls questions 0 [] 0

/-! Derived characterizations and concrete fixtures used by the
theorems. -/

/-- The `Question` a record parses to when its text is non-blank. -/
def questionOf (r : JValue) : Question :=
  ⟨asStrD (dget r "question" (.str "")) "", asStrOpt (dget r "expected" .null),
   asStrD (dget r "language" (.str "hebrew")) "hebrew"⟩

/-- The per-question results a suite of valid records produces, indexed
from `i`. -/
def suiteResults (durs : Nat → ℚ) (nows : Nat → PyDateTime) (agent_id : String) (sids : Nat → String) (calls : Nat → AgentCall) : List JValue → Nat → List TestResult
  | [], _ => []
  | r :: rest, i =>
      run_single_test (questionOf r) (durs i) (nows i) agent_id (sids i) (calls i)
      :: suiteResults durs nows agent_id sids calls rest (i + 1)

/-- A fixed wall-clock value for concrete runs. -/
def clock0 : PyDateTime := ⟨2024, 1, 1, 0, 0, 0, 0⟩

/-- Fallback element for positional access to result lists. -/
def defaultTR : TestResult := ⟨"", none, none, 0, false, none, clock0⟩

/-- A trace event carrying all five stage keys at once (used to compare
the two pipeline copies on co-occurring stages). -/
def allStageEvent : JValue :=
  .obj [("agentId", .str "A1"), ("agentName", .str "TestAgent"),
        ("trace", .obj
          [("preProcessingTrace", .obj []),
           ("orchestrationTrace", .obj [("rationale", .obj [("text", .str "thinking")])]),
           ("postProcessingTrace", .obj []),
           ("guardrailTrace", .obj [("action", .str "NONE")]),
           ("failureTrace", .obj [("failureReason", .str "boom")])])]

/-- The spec's synthetic completion stream: one rationale, one
ACTION_GROUP invocationInput, one ACTION_GROUP observation and one
FINISH observation, each wrapped in the AWS completion-event shape
`(chunk | trace)` with the trace payload carrying agent fields and the
nested stage object. -/
def synthEvents : List JValue :=
  [ .obj [("trace", .obj [("agentId", .str "A1"), ("agentName", .str "TestAgent"),
      ("trace", .obj [("orchestrationTrace", .obj
        [("rationale", .obj [("text", .str "thinking")])])])])],
    .obj [("trace", .obj [("agentId", .str "A1"), ("agentName", .str "TestAgent"),
      ("trace", .obj [("orchestrationTrace", .obj
        [("invocationInput", .obj
          [("invocationType", .str "ACTION_GROUP"),
           ("actionGroupInvocationInput", .obj
             [("actionGroupName", .str "SearchAPI"), ("apiPath", .str "/search"),
              ("verb", .str "GET")])])])])])],
    .obj [("trace", .obj [("agentId", .str "A1"), ("agentName", .str "TestAgent"),
      ("trace", .obj [("orchestrationTrace", .obj
        [("observation", .obj
          [("type", .str "ACTION_GROUP"),
           ("actionGroupInvocationOutput", .obj [("text", .str "ok")])])])])])],
    .obj [("trace", .obj [("agentId", .str "A1"), ("agentName", .str "TestAgent"),
      ("trace", .obj [("orchestrationTrace", .obj
        [("observation", .obj
          [("type", .str "FINISH"),
           ("finalResponse", .obj [("text", .str "done")])])])])])] ]

/-- The synthetic stream processed the way `dd_eval.main` (line 381) and
the orchestrator do it — handing `event["trace"]` to the processor. -/
def synthProcessedCorrectly (b : Bool) : List SpanEvent :=
  synthEvents.foldl (fun acc ev =>
    acc ++ ddEval_process_trace_event b (dget ev "trace" .null) "sid") []

/-- The single-record suite input whose only completion event is a
whitespace chunk. -/
def wsRecord : JValue := .obj [("question", .str "q1")]

/-- The agent call yielding one whitespace chunk and a clean end of
stream. -/
def wsCall : AgentCall := .callOk [.obj [("chunk", .obj [("bytes", .str " ")])]] .done

/-! Proof-side characterization of the `find_longest_match` dynamic
program on a string compared against itself: `mlMap x i j` is the value
the row-`i` `j2len` map holds at `j` (the length of the common suffix of
visible — non-popular — runs ending at `i` and `j`). -/

/-- The condition for `j` to be visited in row `i` of the dynamic
program when both sequences are `x`: `j` is a position of the row
character and that character survived popularity filtering. -/
def chainCond (x : List Char) (i j : Nat) : Prop :=
  j < x.length ∧ x.getD j nullChar = x.getD i nullChar ∧
  isPopular x (x.getD i nullChar) = false

instance (x : List Char) (i j : Nat) : Decidable (chainCond x i j) := by
  unfold chainCond
  infer_instance

/-- The `j2len` map contents after row `i` of the self-comparison
dynamic program. -/
def mlMap (x : List Char) : Nat → Nat → Nat
  | 0, j => if chainCond x 0 j then 1 else 0
  | i + 1, j =>
      if chainCond x (i + 1) j then
        (match j with
         | 0 => 1
         | j' + 1 => mlMap x i j' + 1)
      else 0

/-- The `j2len` map contents on entry to row `i` (empty before the first
row). -/
def mlPrevMap (x : List Char) : Nat → Nat → Nat
  | 0, _ => 0
  | i + 1, j => mlMap x i j

/-- The range invariant of `find_longest_match`: the reported match lies
inside the `[alo, ahi) × [blo, bhi)` window. -/
def BestInv (alo ahi blo bhi : Nat) (m : BestM) : Prop :=
  alo ≤ m.besti ∧ blo ≤ m.bestj ∧ m.besti + m.bestsize ≤ ahi ∧ m.bestj + m.bestsize ≤ bhi

/-! Theorems.  One theorem per claim, with shared helper lemmas. -/

/-- C5: an orchestration `invocationInput` whose `invocationType` is
outside {ACTION_GROUP, KNOWLEDGE_BASE, AGENT_COLLABORATOR} (including a
non-string discriminator), and an `observation` whose `type` is outside
{ACTION_GROUP, KNOWLEDGE_BASE, AGENT_COLLABORATOR, FINISH, REPROMPT},
produce no span and no record; the dispatchers are total, so no error is
raised. -/
theorem unknown_discriminator_silently_ignored :
    (∀ (orchestration inv : JValue) (sid : String) (agent_name : JValue),
        orchestration.getKey "invocationInput" = some inv →
        (∀ s : String, dget inv "invocationType" (.str "") = .str s →
            s ≠ "ACTION_GROUP" ∧ s ≠ "KNOWLEDGE_BASE" ∧ s ≠ "AGENT_COLLABORATOR") →
        process_invocation_input orchestration sid agent_name = [])
  ∧ (∀ (orchestration obs : JValue) (sid : String) (agent_name : JValue),
        orchestration.getKey "observation" = some obs →
        (∀ s : String, dget obs "type" (.str "") = .str s →
            s ≠ "ACTION_GROUP" ∧ s ≠ "KNOWLEDGE_BASE" ∧ s ≠ "AGENT_COLLABORATOR" ∧
            s ≠ "FINISH" ∧ s ≠ "REPROMPT") →
        process_observation orchestration sid agent_name = []) := by
  constructor
  · intro orchestration inv sid agent_name hk hs
    unfold process_invocation_input
    simp only [hk]
    rcases hdv : dget inv "invocationType" (.str "") with _ | _ | _ | _ | s | _ | _
    all_goals simp only [hdv]
    obtain ⟨h1, h2, h3⟩ := hs s hdv
    simp [h1, h2, h3]
  · intro orchestration obs sid agent_name hk hs
    unfold process_observation
    simp only [hk]
    rcases hdv : dget obs "type" (.str "") with _ | _ | _ | _ | s | _ | _
    all_goals simp only [hdv]
    obtain ⟨h1, h2, h3, h4, h5⟩ := hs s hdv
    simp [h1, h2, h3, h4, h5]

/-- C5 witness: the spec's `UNKNOWN_TYPE` fixtures. -/
theorem unknown_discriminator_silently_ignored_witness :
    process_invocation_input
      (.obj [("invocationInput", .obj [("invocationType", .str "UNKNOWN_TYPE")])]) "s1" (.str "A") = []
  ∧ process_observation
      (.obj [("observation", .obj [("type", .str "UNKNOWN_TYPE")])]) "s1" (.str "A") = [] := by
  constructor
  · refine unknown_discriminator_silently_ignored.1 _
      (.obj [("invocationType", .str "UNKNOWN_TYPE")]) "s1" (.str "A") rfl ?_
    intro s hs
    have hseq : s = "UNKNOWN_TYPE" := by
      simp [dget, JValue.getKey, jlookup] at hs
      exact hs.symm
    subst hseq
    exact ⟨by decide, by decide, by decide⟩
  · refine unknown_discriminator_silently_ignored.2 _
      (.obj [("type", .str "UNKNOWN_TYPE")]) "s1" (.str "A") rfl ?_
    intro s hs
    have hseq : s = "UNKNOWN_TYPE" := by
      simp [dget, JValue.getKey, jlookup] at hs
      exact hs.symm
    subst hseq
    exact ⟨by decide, by decide, by decide, by decide, by decide⟩

/-- C6: extraction is total for every stage and sub-kind handler (no
`raise` exists in any extractor, mirroring the all-`.get` reads of the
source), and in each of the thirteen extractors every optional field
that is absent falls back to its documented default: the empty string
for text fields (rationale, knowledge-base input, collaborator
input/output, action-group input/output, FINISH, REPROMPT,
postprocessing, guardrail action, failure reason), the empty list for
`parameters` / `retrievedReferences` / assessments (and a retrieved
reference with no content text contributes no document), the empty
usage dict, and `True` for the preprocessing `isValid` flag. -/
theorem missing_optional_fields_default :
    (∀ pre : JValue,
        ((dget pre "modelInvocationInput" (.obj [])).getKey "text" = none →
           (extract_preprocessing pre).prompt_text = .str "")
      ∧ ((dget (dget pre "modelInvocationOutput" (.obj [])) "parsedResponse" (.obj [])).getKey "rationale" = none →
           (extract_preprocessing pre).rationaleText = .str "")
      ∧ ((dget (dget pre "modelInvocationOutput" (.obj [])) "parsedResponse" (.obj [])).getKey "isValid" = none →
           (extract_preprocessing pre).is_valid = .bool true)
      ∧ ((dget pre "modelInvocationInput" (.obj [])).getKey "foundationModel" = none →
           (extract_preprocessing pre).foundation_model = .str "")
      ∧ ((dget (dget pre "modelInvocationOutput" (.obj [])) "metadata" (.obj [])).getKey "usage" = none →
           (extract_preprocessing pre).usage = .obj []))
  ∧ (∀ r : JValue,
        r.getKey "text" = none → (extract_rationale r).rationale_text = .str "")
  ∧ (∀ inv : JValue,
        ((dget inv "actionGroupInvocationInput" (.obj [])).getKey "actionGroupName" = none →
           (extract_action_group_input inv).action_name = .str "")
      ∧ ((dget inv "actionGroupInvocationInput" (.obj [])).getKey "apiPath" = none →
           (extract_action_group_input inv).api_path = .str "")
      ∧ ((dget inv "actionGroupInvocationInput" (.obj [])).getKey "verb" = none →
           (extract_action_group_input inv).verb = .str "")
      ∧ ((dget inv "actionGroupInvocationInput" (.obj [])).getKey "parameters" = none →
           (extract_action_group_input inv).parameters = .arr [])
      ∧ ((dget inv "actionGroupInvocationInput" (.obj [])).getKey "executionType" = none →
           (extract_action_group_input inv).execution_type = .str ""))
  ∧ (∀ inv : JValue,
        ((dget inv "knowledgeBaseLookupInput" (.obj [])).getKey "knowledgeBaseId" = none →
           (extract_knowledge_base_input inv).kb_id = .str "")
      ∧ ((dget inv "knowledgeBaseLookupInput" (.obj [])).getKey "text" = none →
           (extract_knowledge_base_input inv).query_text = .str ""))
  ∧ (∀ inv : JValue,
        ((dget inv "agentCollaboratorInvocationInput" (.obj [])).getKey "agentCollaboratorName" = none →
           (extract_collaborator_input inv).collab_name = .str "")
      ∧ ((dget (dget inv "agentCollaboratorInvocationInput" (.obj [])) "input" (.obj [])).getKey "text" = none →
           (extract_collaborator_input inv).input_text = .str "")
      ∧ ((dget inv "agentCollaboratorInvocationInput" (.obj [])).getKey "agentCollaboratorAliasArn" = none →
           (extract_collaborator_input inv).collaborator_arn = .str ""))
  ∧ (∀ obs : JValue,
        (dget obs "actionGroupInvocationOutput" (.obj [])).getKey "text" = none →
          (extract_action_group_output obs).response_text = .str "")
  ∧ (∀ obs : JValue,
        (dget obs "knowledgeBaseLookupOutput" (.obj [])).getKey "retrievedReferences" = none →
          (extract_knowledge_base_output obs).references = .arr []
          ∧ (extract_knowledge_base_output obs).retrieved_docs = []
          ∧ (extract_knowledge_base_output obs).all_text = "")
  ∧ (∀ r : JValue,
        (dget r "content" (.obj [])).getKey "text" = none → buildDocs [r] = [])
  ∧ (∀ obs : JValue,
        ((dget obs "agentCollaboratorInvocationOutput" (.obj [])).getKey "agentCollaboratorName" = none →
           (extract_collaborator_output obs).collab_name = .str "")
      ∧ ((dget (dget obs "agentCollaboratorInvocationOutput" (.obj [])) "output" (.obj [])).getKey "text" = none →
           (extract_collaborator_output obs).output_text = .str ""))
  ∧ (∀ obs : JValue,
        (dget obs "finalResponse" (.obj [])).getKey "text" = none →
          (extract_final_response obs).final_text = .str "")
  ∧ (∀ obs : JValue,
        ((dget obs "repromptResponse" (.obj [])).getKey "text" = none →
           (extract_reprompt obs).reprompt_text = .str "")
      ∧ ((dget obs "repromptResponse" (.obj [])).getKey "source" = none →
           (extract_reprompt obs).reprompt_source = .str ""))
  ∧ (∀ post : JValue,
        ((dget post "modelInvocationInput" (.obj [])).getKey "text" = none →
           (extract_postprocessing post).input_text = .str "")
      ∧ ((dget (dget post "modelInvocationOutput" (.obj [])) "parsedResponse" (.obj [])).getKey "text" = none →
           (extract_postprocessing post).output_text = .str "")
      ∧ ((dget post "modelInvocationInput" (.obj [])).getKey "foundationModel" = none →
           (extract_postprocessing post).foundation_model = .str "")
      ∧ ((dget (dget post "modelInvocationOutput" (.obj [])) "metadata" (.obj [])).getKey "usage" = none →
           (extract_postprocessing post).usage = .obj []))
  ∧ (∀ g : JValue,
        (g.getKey "inputAssessments" = none →
           (extract_guardrail g).input_assessments = .arr [])
      ∧ (g.getKey "outputAssessments" = none →
           (extract_guardrail g).output_assessments = .arr [])
      ∧ (g.getKey "action" = none → (extract_guardrail g).action = .str ""))
  ∧ (∀ f : JValue,
        f.getKey "failureReason" = none →
          (extract_failure f).failure_reason = .str "") := by
  have hd : ∀ (v : JValue) (k : String) (d : JValue), v.getKey k = none → dget v k d = d := by
    intro v k d h
    simp [dget, h]
  refine ⟨fun pre => ⟨fun h => ?_, fun h => ?_, fun h => ?_, fun h => ?_, fun h => ?_⟩,
          fun r h => ?_,
          fun inv => ⟨fun h => ?_, fun h => ?_, fun h => ?_, fun h => ?_, fun h => ?_⟩,
          fun inv => ⟨fun h => ?_, fun h => ?_⟩,
          fun inv => ⟨fun h => ?_, fun h => ?_, fun h => ?_⟩,
          fun obs h => ?_,
          fun obs h => ?_,
          fun r h => ?_,
          fun obs => ⟨fun h => ?_, fun h => ?_⟩,
          fun obs h => ?_,
          fun obs => ⟨fun h => ?_, fun h => ?_⟩,
          fun post => ⟨fun h => ?_, fun h => ?_, fun h => ?_, fun h => ?_⟩,
          fun g => ⟨fun h => ?_, fun h => ?_, fun h => ?_⟩,
          fun f h => ?_⟩ <;>
    simp [extract_preprocessing, extract_rationale, extract_action_group_input,
          extract_knowledge_base_input, extract_collaborator_input,
          extract_action_group_output, extract_knowledge_base_output, buildDocs,
          extract_collaborator_output, extract_final_response, extract_reprompt,
          extract_postprocessing, extract_guardrail, extract_failure,
          hd _ _ _ h] <;>
    rfl

/-- C6 witness: the fully-empty event bodies, one per extractor. -/
theorem missing_optional_fields_default_witness :
    (extract_preprocessing (.obj [])).prompt_text = .str ""
  ∧ (extract_preprocessing (.obj [])).is_valid = .bool true
  ∧ (extract_rationale (.obj [])).rationale_text = .str ""
  ∧ (extract_action_group_input (.obj [])).parameters = .arr []
  ∧ (extract_action_group_input (.obj [])).verb = .str ""
  ∧ (extract_knowledge_base_input (.obj [])).query_text = .str ""
  ∧ (extract_collaborator_input (.obj [])).input_text = .str ""
  ∧ (extract_action_group_output (.obj [])).response_text = .str ""
  ∧ (extract_knowledge_base_output (.obj [])).retrieved_docs = []
  ∧ buildDocs [.obj []] = []
  ∧ (extract_collaborator_output (.obj [])).output_text = .str ""
  ∧ (extract_final_response (.obj [])).final_text = .str ""
  ∧ (extract_reprompt (.obj [])).reprompt_text = .str ""
  ∧ (extract_postprocessing (.obj [])).output_text = .str ""
  ∧ (extract_guardrail (.obj [])).input_assessments = .arr []
  ∧ (extract_failure (.obj [])).failure_reason = .str "" :=
  ⟨(missing_optional_fields_default.1 (.obj [])).1 rfl,
   (missing_optional_fields_default.1 (.obj [])).2.2.1 rfl,
   missing_optional_fields_default.2.1 (.obj []) rfl,
   (missing_optional_fields_default.2.2.1 (.obj [])).2.2.2.1 rfl,
   (missing_optional_fields_default.2.2.1 (.obj [])).2.2.1 rfl,
   (missing_optional_fields_default.2.2.2.1 (.obj [])).2 rfl,
   (missing_optional_fields_default.2.2.2.2.1 (.obj [])).2.1 rfl,
   missing_optional_fields_default.2.2.2.2.2.1 (.obj []) rfl,
   (missing_optional_fields_default.2.2.2.2.2.2.1 (.obj []) rfl).2.1,
   missing_optional_fields_default.2.2.2.2.2.2.2.1 (.obj []) rfl,
   (missing_optional_fields_default.2.2.2.2.2.2.2.2.1 (.obj [])).2 rfl,
   missing_optional_fields_default.2.2.2.2.2.2.2.2.2.1 (.obj []) rfl,
   (missing_optional_fields_default.2.2.2.2.2.2.2.2.2.2.1 (.obj [])).1 rfl,
   (missing_optional_fields_default.2.2.2.2.2.2.2.2.2.2.2.1 (.obj [])).2.1 rfl,
   (missing_optional_fields_default.2.2.2.2.2.2.2.2.2.2.2.2.1 (.obj [])).1 rfl,
   missing_optional_fields_default.2.2.2.2.2.2.2.2.2.2.2.2.2 (.obj []) rfl⟩

/-- C4 (code bug): on a trace event carrying all five stage keys, the
modular `TraceProcessor.process_trace_event` attempts every stage
independently and emits a span for each present stage, while the
`dd_eval.py` duplicate emits nothing for the postProcessing and failure
stages — it has no handlers for them, contradicting the module's own
docstring ("preprocess ... postprocess, guardrail, failure"). -/
theorem stage_handlers_attempted_independently :
    opensOf (process_trace_event allStageEvent "sid") =
      [(SpanKind.task, "preprocessing-validation"),
       (SpanKind.agent, "reasoning-agent-TestAgent"),
       (SpanKind.task, "response-postprocessing"),
       (SpanKind.task, "guardrail-assessment"),
       (SpanKind.task, "error-handler")]
  ∧ opensOf (ddEval_process_trace_event false allStageEvent "sid") =
      [(SpanKind.task, "preprocessing-validation"),
       (SpanKind.agent, "reasoning-agent-TestAgent"),
       (SpanKind.task, "guardrail-assessment")] :=
  ⟨rfl, rfl⟩

/-- C7 (code bug): `dd_eval.evaluate` hands the whole completion event
(not `event["trace"]`) to `process_trace_event`, so on the spec's
synthetic four-record stream the stage keys are searched one level too
high and no non-root span is ever opened — only the root workflow span
and the root agent span appear, for either value of the
annotate-raises flag.  Processing the same stream the way `main` and
the orchestrator do (passing `event["trace"]`) yields exactly the four
non-root spans, opened and closed in stream order, each scope released
even when the FINISH-observation annotation raises. -/
theorem evaluate_zero_nonroot_spans :
    (∀ b : Bool,
        opensOf (dd_evaluate "AID" "sid" "q" "expected" synthEvents b) =
          [(SpanKind.task, "workflow"), (SpanKind.agent, "bedrock:AID")])
  ∧ (∀ b : Bool,
        skeletonOf (synthProcessedCorrectly b) =
          [(true, SpanKind.agent, "reasoning-agent-TestAgent"),
           (false, SpanKind.agent, "reasoning-agent-TestAgent"),
           (true, SpanKind.tool, "action-SearchAPI"),
           (false, SpanKind.tool, "action-SearchAPI"),
           (true, SpanKind.tool, "action-group-response"),
           (false, SpanKind.tool, "action-group-response"),
           (true, SpanKind.llm, "final-response-generator"),
           (false, SpanKind.llm, "final-response-generator")]
        ∧ wellScoped (synthProcessedCorrectly b) = true) := by
  constructor
  · intro b
    cases b <;> rfl
  · intro b
    cases b <;> exact ⟨rfl, rfl⟩

/-- C3 (amended): the display formatter unwraps a quoted payload once,
parses an object payload again and renders it indented; at any parse
failure `format_response_for_display` returns the original string.  The
doubly JSON-encoded object yields the indented object. -/
theorem action_group_unwrap_display :
    (format_response_for_display "\"\x7b\\\"a\\\":1\x7d\"" = "\x7b\n  \"a\": 1\n\x7d")
  ∧ (∀ s t : String, pyStartsWith s "\"" = true → pyEndsWith s "\"" = true →
       loads s = some (.str t) → pyStartsWith (pyStrip t) "\x7b" = true →
       ∀ fs, loads t = some (.obj fs) →
         format_response_for_display s = jdumps (.obj fs))
  ∧ (∀ s : String, pyStartsWith s "\"" = true → pyEndsWith s "\"" = true →
       loads s = none → format_response_for_display s = s)
  ∧ (∀ s t : String, pyStartsWith s "\"" = true → pyEndsWith s "\"" = true →
       loads s = some (.str t) → pyStartsWith (pyStrip t) "\x7b" = true →
       loads t = none → format_response_for_display s = s)
  ∧ (∀ s : String, (pyStartsWith s "\"" = true ∧ pyEndsWith s "\"" = true → False) →
       pyStartsWith (pyStrip s) "\x7b" = true → loads s = none →
       format_response_for_display s = s) := by
  refine ⟨by decide, ?_, ?_, ?_, ?_⟩
  · intro s t h1 h2 h3 h4 fs h5
    unfold format_response_for_display safe_json_parse
    rw [if_pos ⟨h1, h2⟩, h3]
    simp only [h4, if_true, h5]
  · intro s h1 h2 h3
    unfold format_response_for_display safe_json_parse
    rw [if_pos ⟨h1, h2⟩, h3]
  · intro s t h1 h2 h3 h4 h5
    unfold format_response_for_display safe_json_parse
    rw [if_pos ⟨h1, h2⟩, h3]
    simp only [h4, if_true, h5]
  · intro s h1 h2 h3
    unfold format_response_for_display safe_json_parse
    rw [if_neg h1, if_pos h2, h3]

/-- C3 witness: the quoted-but-malformed payload reaches the
second-parse-failure case and the display falls back to the original
string. -/
theorem action_group_unwrap_display_witness :
    format_response_for_display "\"\x7boops\"" = "\"\x7boops\"" :=
  action_group_unwrap_display.2.2.2.1 "\"\x7boops\"" "\x7boops" rfl rfl rfl rfl rfl

/-- C3 counterexample: the claim says a parse failure falls back to the
original string; the inline `dd_eval.py` formatter, after its
successful unquoting step rebinds `response_text`, falls back to the
unquoted string instead. -/
theorem ddeval_fallback_not_original :
    ddEvalFormatActionResponse "\"\x7boops\"" = "\x7boops"
  ∧ ("\x7boops" : String) ≠ "\"\x7boops\"" :=
  ⟨by decide, by decide⟩

/-- C2: when invoking the collaborator raises, or the stream raises
mid-consumption, the walker returns `none` and the workflow span —
opened first, closed last — receives the error annotation (tag
`error="true"`, the exception message and its type name, see
`errorAnn`) immediately before its close, i.e. while still open. -/
theorem walker_absorbs_stream_errors :
    ∀ (question : String) (expected : Option String) (agent_id session_id : String)
      (call : AgentCall) (e : PyExn),
      (call = .callRaises e ∨ ∃ events, call = .callOk events (.raiseMid e)) →
      (ask_agent_with_traces question expected agent_id session_id call).1 = none
      ∧ ∃ mid : List SpanEvent,
          (ask_agent_with_traces question expected agent_id session_id call).2 =
            SpanEvent.openSpan .workflow "bedrock-agent-workflow" session_id ::
              (mid ++ [SpanEvent.annEvent (errorAnn question e),
                       SpanEvent.closeSpan .workflow "bedrock-agent-workflow"]) := by
  intro q exp aid sid call e hcall
  rcases hcall with h | ⟨events, h⟩ <;> subst h
  · exact ⟨rfl, ⟨[SpanEvent.annEvent (workflowStartAnn q exp),
                  SpanEvent.openSpan .agent ("bedrock-agent-" ++ aid) sid,
                  SpanEvent.closeSpan .agent ("bedrock-agent-" ++ aid)], rfl⟩⟩
  · refine ⟨rfl, ⟨[SpanEvent.annEvent (workflowStartAnn q exp),
                   SpanEvent.openSpan .agent ("bedrock-agent-" ++ aid) sid] ++
                  (consumeEvents sid events).2 ++
                  [SpanEvent.closeSpan .agent ("bedrock-agent-" ++ aid)], ?_⟩⟩
    simp [ask_agent_with_traces]

/-- C2 witness: a concrete raising invocation. -/
theorem walker_absorbs_stream_errors_witness :
    (ask_agent_with_traces "q" none "A1" "s1" (.callRaises ⟨"RuntimeError", "boom"⟩)).1 = none
    ∧ ∃ mid : List SpanEvent,
        (ask_agent_with_traces "q" none "A1" "s1" (.callRaises ⟨"RuntimeError", "boom"⟩)).2 =
          SpanEvent.openSpan .workflow "bedrock-agent-workflow" "s1" ::
            (mid ++ [SpanEvent.annEvent (errorAnn "q" ⟨"RuntimeError", "boom"⟩),
                     SpanEvent.closeSpan .workflow "bedrock-agent-workflow"]) :=
  walker_absorbs_stream_errors "q" none "A1" "s1" _ ⟨"RuntimeError", "boom"⟩ (Or.inl rfl)

/-- Helper: on a suite whose records all have non-blank question text,
the loop returns the per-question results and the success count. -/
theorem suiteGo_eq_ok (durs : Nat → ℚ) (nows : Nat → PyDateTime) (aid : String)
    (sids : Nat → String) (calls : Nat → AgentCall) :
    ∀ (qs : List JValue) (i : Nat) (acc : List TestResult) (succ : Nat),
      (∀ r ∈ qs, pyStrip (asStrD (dget r "question" (.str "")) "") ≠ "") →
      suiteGo durs nows aid sids calls qs i acc succ =
        .ok (acc.reverse ++ suiteResults durs nows aid sids calls qs i,
             succ + (suiteResults durs nows aid sids calls qs i).countP (fun r => r.success)) := by
  intro qs
  induction qs with
  | nil => intro i acc succ _; simp [suiteGo, suiteResults]
  | cons r rest ih =>
    intro i acc succ hv
    have hr : pyStrip (asStrD (dget r "question" (.str "")) "") ≠ "" := hv r (by simp)
    have hq : Question.from_dict r = .ok (questionOf r) := by
      unfold Question.from_dict questionOf
      rw [if_neg hr]
    unfold suiteGo
    rw [hq]
    simp only []
    rw [ih (i + 1) _ _ (fun x hx => hv x (by simp [hx]))]
    simp only [suiteResults, List.countP_cons, List.reverse_cons, List.append_assoc,
               List.singleton_append]
    have hsplit : ∀ (b : Bool) (s c : Nat),
        (s + if b = true then 1 else 0) + c = s + (c + if b = true then 1 else 0) := by
      intro b s c
      cases b <;> simp <;> omega
    rw [hsplit]

/-- Helper: the per-question result list has one entry per record. -/
theorem suiteResults_length (durs : Nat → ℚ) (nows : Nat → PyDateTime) (aid : String)
    (sids : Nat → String) (calls : Nat → AgentCall) :
    ∀ (qs : List JValue) (i : Nat),
      (suiteResults durs nows aid sids calls qs i).length = qs.length := by
  intro qs
  induction qs with
  | nil => intro i; rfl
  | cons r rest ih => intro i; simp [suiteResults, ih]

/-- Helper: positional access into the per-question results. -/
theorem suiteResults_getD (durs : Nat → ℚ) (nows : Nat → PyDateTime) (aid : String)
    (sids : Nat → String) (calls : Nat → AgentCall) :
    ∀ (qs : List JValue) (i0 i : Nat), i < qs.length →
      (suiteResults durs nows aid sids calls qs i0).getD i defaultTR =
        run_single_test (questionOf (qs.getD i (.obj []))) (durs (i0 + i)) (nows (i0 + i))
          aid (sids (i0 + i)) (calls (i0 + i)) := by
  intro qs
  induction qs with
  | nil => intro i0 i hi; simp at hi
  | cons r rest ih =>
    intro i0 i hi
    cases i with
    | zero => simp [suiteResults]
    | succ i' =>
      have := ih (i0 + 1) i' (by simpa using hi)
      simp only [suiteResults, List.getD_cons_succ, List.getD_cons_succ, this]
      have harith : i0 + 1 + i' = i0 + (i' + 1) := by omega
      rw [harith]

/-- C1 (amended): for every list of records whose question texts are
non-blank, the suite completes with exactly one result per record in
input order; a question whose invocation or stream consumption raises
yields `success = false` with the recorded message (the walker already
absorbed the exception into a `None` response), and every other
question keeps the outcome its own processing determines (the results
equal the per-question model pointwise).  A record with a blank
question aborts the whole suite instead (see the counterexample). -/
theorem suite_yields_one_result_per_question
    (durs : Nat → ℚ) (nows : Nat → PyDateTime) (aid : String) (sids : Nat → String)
    (calls : Nat → AgentCall) (qs : List JValue)
    (hvalid : ∀ r ∈ qs, pyStrip (asStrD (dget r "question" (.str "")) "") ≠ "") :
    run_test_suite qs durs nows aid sids calls =
      .ok (suiteResults durs nows aid sids calls qs 0,
           (suiteResults durs nows aid sids calls qs 0).countP (fun r => r.success))
    ∧ (suiteResults durs nows aid sids calls qs 0).length = qs.length
    ∧ (∀ i, i < qs.length →
        (∀ e, calls i = .callRaises e →
           ((suiteResults durs nows aid sids calls qs 0).getD i defaultTR).success = false
           ∧ ((suiteResults durs nows aid sids calls qs 0).getD i defaultTR).error_message =
               some "No response received")
        ∧ (∀ events e, calls i = .callOk events (.raiseMid e) →
           ((suiteResults durs nows aid sids calls qs 0).getD i defaultTR).success = false
           ∧ ((suiteResults durs nows aid sids calls qs 0).getD i defaultTR).error_message =
               some "No response received")) := by
  refine ⟨?_, suiteResults_length durs nows aid sids calls qs 0, ?_⟩
  · have := suiteGo_eq_ok durs nows aid sids calls qs 0 [] 0 hvalid
    simpa [run_test_suite] using this
  · intro i hi
    have hg := suiteResults_getD durs nows aid sids calls qs 0 i hi
    simp only [Nat.zero_add] at hg
    constructor
    · intro e hce
      rw [hg, hce]
      exact ⟨rfl, rfl⟩
    · intro events e hce
      rw [hg, hce]
      exact ⟨rfl, rfl⟩

/-- C1 witness: three questions, the second raising mid-stream. -/
theorem suite_yields_one_result_per_question_witness :
    run_test_suite
        [.obj [("question", .str "q1")], .obj [("question", .str "q2")],
         .obj [("question", .str "q3")]]
        (fun _ => 0) (fun _ => clock0) "A1" (fun _ => "s")
        (fun i => if i = 1 then .callOk [] (.raiseMid ⟨"EventStreamError", "edge"⟩)
                  else .callOk [.obj [("chunk", .obj [("bytes", .str "ans")])]] .done) =
      .ok (suiteResults (fun _ => 0) (fun _ => clock0) "A1" (fun _ => "s")
             (fun i => if i = 1 then .callOk [] (.raiseMid ⟨"EventStreamError", "edge"⟩)
                       else .callOk [.obj [("chunk", .obj [("bytes", .str "ans")])]] .done)
             [.obj [("question", .str "q1")], .obj [("question", .str "q2")],
              .obj [("question", .str "q3")]] 0,
           (suiteResults (fun _ => 0) (fun _ => clock0) "A1" (fun _ => "s")
             (fun i => if i = 1 then .callOk [] (.raiseMid ⟨"EventStreamError", "edge"⟩)
                       else .callOk [.obj [("chunk", .obj [("bytes", .str "ans")])]] .done)
             [.obj [("question", .str "q1")], .obj [("question", .str "q2")],
              .obj [("question", .str "q3")]] 0).countP (fun r => r.success)) :=
  (suite_yields_one_result_per_question _ _ _ _ _ _ (by decide)).1

/-- C1 counterexample: a record whose question text is empty makes
`Question.__post_init__` raise outside the per-test `try`, so the suite
aborts with no results instead of yielding one result for its single
record. -/
theorem empty_question_aborts_suite :
    run_test_suite [.obj [("question", .str "")]] (fun _ => 0) (fun _ => clock0) "A1"
        (fun _ => "s") (fun _ => .callOk [] .done) =
      .error ⟨"ValueError", "Question cannot be empty"⟩ := rfl

/-- Helper: each result's success flag is definitionally whether its
response is non-`None`. -/
theorem suiteResults_success_eq (durs : Nat → ℚ) (nows : Nat → PyDateTime) (aid : String)
    (sids : Nat → String) (calls : Nat → AgentCall) :
    ∀ (qs : List JValue) (i : Nat) (r : TestResult),
      r ∈ suiteResults durs nows aid sids calls qs i → r.success = r.response.isSome := by
  intro qs
  induction qs with
  | nil => intro i r hr; simp [suiteResults] at hr
  | cons q rest ih =>
    intro i r hr
    simp only [suiteResults, List.mem_cons] at hr
    rcases hr with h | h
    · subst h; rfl
    · exact ih (i + 1) r h

/-- C9 (amended): the reported success count equals the number of
results whose response is non-`None` — equivalently, whose raw
accumulated output was a non-empty string.  Because the stored answer
is the *stripped* output, a whitespace-only output counts as a success
while its produced answer is the empty string (see the
counterexample). -/
theorem success_counts_nonnull_responses
    (durs : Nat → ℚ) (nows : Nat → PyDateTime) (aid : String) (sids : Nat → String)
    (calls : Nat → AgentCall) (qs : List JValue)
    (hvalid : ∀ r ∈ qs, pyStrip (asStrD (dget r "question" (.str "")) "") ≠ "") :
    run_test_suite qs durs nows aid sids calls =
      .ok (suiteResults durs nows aid sids calls qs 0,
           (suiteResults durs nows aid sids calls qs 0).countP (fun r => r.response.isSome))
    ∧ (∀ i, i < qs.length → ∀ events,
        calls i = .callOk events .done →
        ((suiteResults durs nows aid sids calls qs 0).getD i defaultTR).response =
          (if (consumeEvents (sids i) events).1 = "" then none
           else some (pyStrip (consumeEvents (sids i) events).1))) := by
  constructor
  · have h1 := suiteGo_eq_ok durs nows aid sids calls qs 0 [] 0 hvalid
    have h2 : (suiteResults durs nows aid sids calls qs 0).countP (fun r => r.success) =
        (suiteResults durs nows aid sids calls qs 0).countP (fun r => r.response.isSome) :=
      List.countP_congr (fun r hr => by
        rw [suiteResults_success_eq durs nows aid sids calls qs 0 r hr])
    rw [← h2]
    simpa [run_test_suite] using h1
  · intro i hi events hce
    have hg := suiteResults_getD durs nows aid sids calls qs 0 i hi
    simp only [Nat.zero_add] at hg
    rw [hg, hce]
    rfl

/-- C9 witness: one question with an ordinary successful stream. -/
theorem success_counts_nonnull_responses_witness :
    run_test_suite [.obj [("question", .str "q1")]] (fun _ => 0) (fun _ => clock0) "A1"
        (fun _ => "s")
        (fun _ => .callOk [.obj [("chunk", .obj [("bytes", .str "hi")])]] .done) =
      .ok (suiteResults (fun _ => 0) (fun _ => clock0) "A1" (fun _ => "s")
             (fun _ => .callOk [.obj [("chunk", .obj [("bytes", .str "hi")])]] .done)
             [.obj [("question", .str "q1")]] 0,
           (suiteResults (fun _ => 0) (fun _ => clock0) "A1" (fun _ => "s")
             (fun _ => .callOk [.obj [("chunk", .obj [("bytes", .str "hi")])]] .done)
             [.obj [("question", .str "q1")]] 0).countP (fun r => r.response.isSome)) :=
  (success_counts_nonnull_responses _ _ _ _ _ _ (by decide)).1

/-- C9 counterexample: a stream whose single chunk is one space gives a
non-`None` (hence counted-successful) response that strips to the empty
string: the reported success count is 1 while the number of non-empty
produced answers is 0. -/
theorem whitespace_output_counts_success :
    run_test_suite [wsRecord] (fun _ => 0) (fun _ => clock0) "A1" (fun _ => "s")
        (fun _ => wsCall) =
      .ok ([⟨"q1", some "", none, 0, true, none, clock0⟩], 1)
  ∧ ([(⟨"q1", some "", none, 0, true, none, clock0⟩ : TestResult)].countP
       (fun r => decide (r.response.getD "" ≠ "")) = 0) := by
  exact ⟨rfl, by decide⟩

/-- Helper: reading back a just-written decimal digit. -/
theorem digitVal_digitChar_mod (n : Nat) : digitVal (digitChar (n % 10)) = some (n % 10) := by
  have h : n % 10 < 10 := Nat.mod_lt _ (by norm_num)
  interval_cases hn : n % 10 <;> rfl

/-- Helper: two-digit round trip. -/
theorem read2_pad2 (n : Nat) (h : n < 100) (rest : List Char) :
    read2 (pad2chars n ++ rest) = some (n, rest) := by
  simp only [pad2chars, List.cons_append, List.nil_append, read2, digitVal_digitChar_mod]
  have : n / 10 % 10 * 10 + n % 10 = n := by omega
  rw [this]

/-- Helper: four-digit round trip. -/
theorem read4_pad4 (n : Nat) (h : n < 10000) (rest : List Char) :
    read4 (pad4chars n ++ rest) = some (n, rest) := by
  simp only [pad4chars, List.cons_append, List.nil_append, read4, digitVal_digitChar_mod]
  have : n / 1000 % 10 * 1000 + n / 100 % 10 * 100 + n / 10 % 10 * 10 + n % 10 = n := by omega
  rw [this]

/-- Helper: `parseIso` inverts `isoChars` on valid datetimes. -/
theorem parseIso_iso (t : PyDateTime) (h : t.valid = true) : parseIso (isoChars t) = some t := by
  simp only [PyDateTime.valid, Bool.and_eq_true, decide_eq_true_eq] at h
  obtain ⟨⟨⟨⟨⟨⟨⟨⟨⟨hy1, hy2⟩, hm1⟩, hm2⟩, hd1⟩, hd2⟩, hh⟩, hmi⟩, hs⟩, hus⟩ := h
  have hdm : daysInMonth t.year t.month ≤ 31 := by
    unfold daysInMonth
    split_ifs <;> omega
  have hexp : ∀ (c : Char) (l : List Char), expectChar c (c :: l) = some l := by
    intro c l
    simp [expectChar]
  have hsb : ∀ {a b : Type} (x : a) (f : a → Option b), (some x >>= f) = f x := fun _ _ => rfl
  unfold parseIso isoChars
  simp only [List.append_assoc, List.cons_append, List.nil_append]
  rw [read4_pad4 t.year (by omega : t.year < 10000)]
  simp only [hsb, hexp,
    read2_pad2 t.month (by omega : t.month < 100),
    read2_pad2 t.day (by omega : t.day < 100),
    read2_pad2 t.hour (by omega : t.hour < 100),
    read2_pad2 t.minute (by omega : t.minute < 100),
    read2_pad2 t.second (by omega : t.second < 100)]
  by_cases hz : t.microsecond = 0
  · rw [if_pos hz]
    exact congrArg some (by cases t; simp_all)
  · rw [if_neg hz]
    simp only [pad6chars, digitVal_digitChar_mod]
    have harith : t.microsecond / 100000 % 10 * 100000 + t.microsecond / 10000 % 10 * 10000 +
        t.microsecond / 1000 % 10 * 1000 + t.microsecond / 100 % 10 * 100 +
        t.microsecond / 10 % 10 * 10 + t.microsecond % 10 = t.microsecond := by omega
    rw [harith]

/-- C10: `from_dict ∘ to_dict` is the identity on every `TestResult`
whose timestamp is a valid datetime (the dataclass invariant): all
seven fields round-trip, the timestamp through its ISO rendering. -/
theorem test_result_roundtrip (r : TestResult) (now : PyDateTime)
    (h : r.timestamp.valid = true) :
    TestResult.from_dict (TestResult.to_dict r) now = r := by
  unfold TestResult.to_dict TestResult.from_dict
  have hne : r.timestamp.isoformat ≠ "" := by
    unfold PyDateTime.isoformat
    intro hc
    have hdata := congrArg String.data hc
    simp only [isoChars, pad4chars, List.cons_append] at hdata
    exact absurd hdata (by simp [String.data])
  rw [if_neg hne]
  unfold PyDateTime.fromisoformat
  have hdata : (PyDateTime.isoformat r.timestamp).data = isoChars r.timestamp := rfl
  rw [hdata, parseIso_iso _ h]
  dsimp only
  rw [if_pos h]
  rfl

/-- C10 witness: a concrete result with a microsecond-carrying
timestamp. -/
theorem test_result_roundtrip_witness :
    TestResult.from_dict
        (TestResult.to_dict ⟨"q", some "a", none, 1 / 2, true, none, ⟨2024, 5, 17, 10, 30, 5, 123456⟩⟩)
        clock0 =
      ⟨"q", some "a", none, 1 / 2, true, none, ⟨2024, 5, 17, 10, 30, 5, 123456⟩⟩ :=
  test_result_roundtrip _ _ (by decide)

/-! C8: the similarity function.  First the characterization of the
`b2j` row lists and of the self-comparison `j2len` maps. -/

/-- Membership in the row list `b2j x (x[i])` is exactly `chainCond`. -/
theorem b2j_mem (x : List Char) (i j : Nat) :
    j ∈ b2j x (x.getD i nullChar) ↔ chainCond x i j := by
  unfold b2j chainCond
  by_cases hp : isPopular x (x.getD i nullChar) = true
  · rw [if_pos hp]
    simp only [List.not_mem_nil, false_iff]
    rintro ⟨-, -, h3⟩
    rw [hp] at h3
    exact absurd h3 (by simp)
  · rw [if_neg hp]
    have hp' : isPopular x (x.getD i nullChar) = false := by
      cases h : isPopular x (x.getD i nullChar)
      · rfl
      · exact absurd h hp
    constructor
    · intro hm
      have hmf := List.mem_filter.mp hm
      exact ⟨List.mem_range.mp hmf.1, of_decide_eq_true hmf.2, hp'⟩
    · rintro ⟨h1, h2, -⟩
      exact List.mem_filter.mpr ⟨List.mem_range.mpr h1, decide_eq_true h2⟩

/-- Row lists are strictly ascending. -/
theorem b2j_sorted (x : List Char) (c : Char) :
    List.Pairwise (· < ·) (b2j x c) := by
  unfold b2j
  split_ifs
  · exact List.Pairwise.nil
  · exact List.Pairwise.sublist (List.filter_sublist _) (List.pairwise_lt_range _)

/-- Outside `chainCond` the row map holds `0`. -/
theorem mlMap_zero (x : List Char) (i j : Nat) (h : ¬ chainCond x i j) :
    mlMap x i j = 0 := by
  cases i <;> simp [mlMap, h]

/-- The value written at a visited column equals `mlMap`. -/
theorem rowVal_eq (x : List Char) (i j : Nat) (hc : chainCond x i j) :
    (if j = 0 then 0 else mlPrevMap x i (j - 1)) + 1 = mlMap x i j := by
  cases i with
  | zero => cases j <;> simp [mlMap, mlPrevMap, hc]
  | succ i' => cases j <;> simp [mlMap, mlPrevMap, hc]

/-- A popularity fact transfers along the character equality of
`chainCond`. -/
theorem chainCond_diag (x : List Char) (i j : Nat) (hi : i < x.length)
    (hc : chainCond x i j) : chainCond x i i := by
  obtain ⟨h1, h2, h3⟩ := hc
  exact ⟨hi, rfl, h3⟩

/-- Within one row the diagonal dominates: a common-suffix chain ending
at `(i, j)` is no longer than the one ending at `(i, i)`. -/
theorem mlMap_le_diag_row (x : List Char) :
    ∀ i j : Nat, i < x.length → mlMap x i j ≤ mlMap x i i := by
  intro i
  induction i with
  | zero =>
    intro j hi
    by_cases hc : chainCond x 0 j
    · have hd : chainCond x 0 0 := chainCond_diag x 0 j hi hc
      simp [mlMap, hc, hd]
    · simp [mlMap, hc]
  | succ i' ih =>
    intro j hi
    by_cases hc : chainCond x (i' + 1) j
    · have hd : chainCond x (i' + 1) (i' + 1) := chainCond_diag x (i' + 1) j hi hc
      cases j with
      | zero => simp [mlMap, hc, hd]
      | succ j' =>
        have := ih j' (by omega)
        simp [mlMap, hc, hd]
        omega
    · simp [mlMap_zero x _ _ hc]

/-- Below the diagonal the claimed diagonal twin dominates: a chain
ending at `(i, j)` with `j ≤ i` is no longer than the one ending at
`(j, j)`. -/
theorem mlMap_le_diag_col (x : List Char) :
    ∀ i j : Nat, j ≤ i → mlMap x i j ≤ mlMap x j j := by
  intro i
  induction i with
  | zero =>
    intro j hj
    interval_cases j
    exact le_refl _
  | succ i' ih =>
    intro j hj
    by_cases hc : chainCond x (i' + 1) j
    · cases j with
      | zero =>
        have hd : chainCond x 0 0 := ⟨hc.1, rfl, by rw [hc.2.1]; exact hc.2.2⟩
        simp [mlMap, hc, hd]
      | succ j' =>
        have hd : chainCond x (j' + 1) (j' + 1) := ⟨hc.1, rfl, by rw [hc.2.1]; exact hc.2.2⟩
        have := ih j' (by omega)
        simp [mlMap, hc, hd]
        omega
    · simp [mlMap_zero x _ _ hc]

/-- The `j2len` map produced by one row of the dynamic program (window
`[0, bhi)`, so no `continue`, and no `break` when every listed column is
below `bhi`). -/
theorem rowStep_map (old : Nat → Nat) (i bhi : Nat) :
    ∀ (js : List Nat) (acc : Nat → Nat) (best : BestM),
      (∀ j ∈ js, j < bhi) →
      (rowStep old i 0 bhi js acc best).1
        = fun j => if j ∈ js then (if j = 0 then 0 else old (j - 1)) + 1 else acc j := by
  intro js
  induction js with
  | nil =>
    intro acc best _
    funext j
    simp [rowStep]
  | cons j0 rest ih =>
    intro acc best hb
    have hb0 : j0 < bhi := hb j0 (List.mem_cons_self _ _)
    simp only [rowStep]
    rw [if_neg (Nat.not_lt_zero j0), if_neg (by omega : ¬ bhi ≤ j0)]
    rw [ih _ _ (fun j hj => hb j (List.mem_cons_of_mem _ hj))]
    funext j
    by_cases hjr : j ∈ rest
    · simp [hjr, List.mem_cons]
    · by_cases hj0 : j = j0
      · subst hj0
        simp [hjr, List.mem_cons]
      · simp [hjr, hj0, List.mem_cons]

/-- One row of the self-comparison dynamic program keeps the running
best on the diagonal and leaves every already-closed diagonal value
dominated: off-diagonal candidates are clipped by `mlMap_le_diag_col`
(columns left of the diagonal, settled in an earlier row) or
`mlMap_le_diag_row` (columns right of it, settled earlier in this row,
the column list being ascending). -/
theorem rowStep_diag (x : List Char) (i : Nat) (hi : i < x.length) :
    ∀ (js : List Nat) (acc : Nat → Nat) (best : BestM),
      List.Pairwise (· < ·) js →
      (∀ j ∈ js, chainCond x i j) →
      best.besti = best.bestj →
      (∀ m, m < i → mlMap x m m ≤ best.bestsize) →
      (i ∈ js ∨ mlMap x i i ≤ best.bestsize) →
      ((rowStep (mlPrevMap x i) i 0 x.length js acc best).2.besti
          = (rowStep (mlPrevMap x i) i 0 x.length js acc best).2.bestj)
        ∧ (∀ m, m < i + 1 →
            mlMap x m m ≤ (rowStep (mlPrevMap x i) i 0 x.length js acc best).2.bestsize)
        ∧ best.bestsize ≤ (rowStep (mlPrevMap x i) i 0 x.length js acc best).2.bestsize := by
  intro js
  induction js with
  | nil =>
    intro acc best _ _ hdiag h1 h2
    refine ⟨hdiag, ?_, le_refl _⟩
    intro m hm
    rcases Nat.lt_succ_iff_lt_or_eq.mp hm with h | h
    · exact h1 m h
    · subst h
      rcases h2 with h | h
      · exact absurd h (List.not_mem_nil _)
      · exact h
  | cons j0 rest ih =>
    intro acc best hpw hmem hdiag h1 h2
    have hc0 : chainCond x i j0 := hmem j0 (List.mem_cons_self _ _)
    have hlen : j0 < x.length := hc0.1
    have hk : (if j0 = 0 then 0 else mlPrevMap x i (j0 - 1)) + 1 = mlMap x i j0 :=
      rowVal_eq x i j0 hc0
    have hpw' : List.Pairwise (· < ·) rest := (List.pairwise_cons.mp hpw).2
    have hgtrest : ∀ a ∈ rest, j0 < a := (List.pairwise_cons.mp hpw).1
    have hmem' : ∀ j ∈ rest, chainCond x i j := fun j hj => hmem j (List.mem_cons_of_mem _ hj)
    simp only [rowStep]
    rw [if_neg (Nat.not_lt_zero j0), if_neg (by omega : ¬ x.length ≤ j0), hk]
    rcases Nat.lt_trichotomy j0 i with hlt | heq | hgt
    · -- column left of the diagonal: dominated by the diagonal twin of row j0
      have hle1 : mlMap x i j0 ≤ mlMap x j0 j0 := mlMap_le_diag_col x i j0 (by omega)
      have hle2 : mlMap x j0 j0 ≤ best.bestsize := h1 j0 hlt
      rw [if_neg (by omega : ¬ best.bestsize < mlMap x i j0)]
      refine ih _ best hpw' hmem' hdiag h1 ?_
      rcases h2 with h | h
      · rcases List.mem_cons.mp h with h' | h'
        · omega
        · exact Or.inl h'
      · exact Or.inr h
    · -- the diagonal column itself
      subst heq
      by_cases hup : best.bestsize < mlMap x j0 j0
      · rw [if_pos hup]
        have H := ih (fun j' => if j' = j0 then mlMap x j0 j0 else acc j')
          ⟨j0 + 1 - mlMap x j0 j0, j0 + 1 - mlMap x j0 j0, mlMap x j0 j0⟩
          hpw' hmem' rfl (fun m hm => le_trans (h1 m hm) (le_of_lt hup)) (Or.inr (le_refl _))
        exact ⟨H.1, H.2.1, le_trans (le_of_lt hup) H.2.2⟩
      · rw [if_neg hup]
        exact ih _ best hpw' hmem' hdiag h1 (Or.inr (by omega))
    · -- column right of the diagonal: the diagonal was visited earlier in
      -- this row (ascending columns), so the best already dominates it
      have hnot : i ∉ j0 :: rest := by
        intro hmemi
        rcases List.mem_cons.mp hmemi with h' | h'
        · omega
        · exact absurd (hgtrest i h') (by omega)
      have hDi : mlMap x i i ≤ best.bestsize := by
        rcases h2 with h | h
        · exact absurd h hnot
        · exact h
      have hle1 : mlMap x i j0 ≤ mlMap x i i := mlMap_le_diag_row x i j0 hi
      rw [if_neg (by omega : ¬ best.bestsize < mlMap x i j0)]
      refine ih _ best hpw' hmem' hdiag h1 (Or.inr hDi)

/-- The outer row loop of the self-comparison dynamic program keeps the
best on the diagonal, threading the row maps via `mlPrevMap`. -/
theorem dpLoop_diag (x : List Char) :
    ∀ (m i0 : Nat) (best : BestM),
      i0 + m ≤ x.length →
      best.besti = best.bestj →
      (∀ m', m' < i0 → mlMap x m' m' ≤ best.bestsize) →
      ((dpLoop x x 0 x.length (List.range' i0 m) (mlPrevMap x i0) best).besti
          = (dpLoop x x 0 x.length (List.range' i0 m) (mlPrevMap x i0) best).bestj)
        ∧ (∀ m', m' < i0 + m →
            mlMap x m' m' ≤ (dpLoop x x 0 x.length (List.range' i0 m) (mlPrevMap x i0) best).bestsize) := by
  intro m
  induction m with
  | zero =>
    intro i0 best _ hdiag h1
    exact ⟨hdiag, fun m' hm' => h1 m' (by omega)⟩
  | succ m ih =>
    intro i0 best hle hdiag h1
    have hi0 : i0 < x.length := by omega
    have hd2 : i0 ∈ b2j x (x.getD i0 nullChar) ∨ mlMap x i0 i0 ≤ best.bestsize := by
      by_cases hcc : chainCond x i0 i0
      · exact Or.inl ((b2j_mem x i0 i0).mpr hcc)
      · exact Or.inr (by rw [mlMap_zero x i0 i0 hcc]; exact Nat.zero_le _)
    have hrow := rowStep_diag x i0 hi0 (b2j x (x.getD i0 nullChar)) (fun _ => 0) best
      (b2j_sorted x _) (fun j hj => (b2j_mem x i0 j).mp hj) hdiag h1 hd2
    have hmap : (rowStep (mlPrevMap x i0) i0 0 x.length
        (b2j x (x.getD i0 nullChar)) (fun _ => 0) best).1 = mlPrevMap x (i0 + 1) := by
      rw [rowStep_map _ _ _ _ _ _ (fun j hj => ((b2j_mem x i0 j).mp hj).1)]
      funext j
      by_cases hj : j ∈ b2j x (x.getD i0 nullChar)
      · simp only [if_pos hj]
        rw [rowVal_eq x i0 j ((b2j_mem x i0 j).mp hj)]
        rfl
      · simp only [if_neg hj]
        have hnc : ¬ chainCond x i0 j := fun hcc => hj ((b2j_mem x i0 j).mpr hcc)
        show (0 : Nat) = mlPrevMap x (i0 + 1) j
        rw [show mlPrevMap x (i0 + 1) j = mlMap x i0 j from rfl]
        exact (mlMap_zero x i0 j hnc).symm
    rw [List.range'_succ]
    simp only [dpLoop]
    rw [hmap]
    have hnext := ih (i0 + 1)
      (rowStep (mlPrevMap x i0) i0 0 x.length (b2j x (x.getD i0 nullChar)) (fun _ => 0) best).2
      (by omega) hrow.1 hrow.2.1
    exact ⟨hnext.1, fun m' hm' => hnext.2 m' (by omega)⟩

/-- The dynamic program of the self comparison over the full windows
returns a diagonal best. -/
theorem dpBest_diag (x : List Char) :
    (dpBest x x 0 x.length 0 x.length).besti = (dpBest x x 0 x.length 0 x.length).bestj := by
  have h0 : (fun _ : Nat => (0 : Nat)) = mlPrevMap x 0 := funext fun _ => rfl
  unfold dpBest
  rw [Nat.sub_zero, h0]
  exact (dpLoop_diag x x.length 0 ⟨0, 0, 0⟩ (by omega) rfl
    (fun m' hm' => absurd hm' (Nat.not_lt_zero m'))).1

/-- One row of the dynamic program keeps the match inside the window
and the `j2len` values within their diagonal bounds. -/
theorem rowStep_inv (old : Nat → Nat) (i alo ahi blo bhi : Nat)
    (hi1 : alo ≤ i) (hi2 : i < ahi)
    (hold : ∀ j', old j' ≤ i - alo ∧ old j' ≤ j' + 1 - blo) :
    ∀ (js : List Nat) (acc : Nat → Nat) (best : BestM),
      BestInv alo ahi blo bhi best →
      (∀ j', acc j' ≤ i + 1 - alo ∧ acc j' ≤ j' + 1 - blo) →
      BestInv alo ahi blo bhi (rowStep old i blo bhi js acc best).2 ∧
      (∀ j', (rowStep old i blo bhi js acc best).1 j' ≤ i + 1 - alo ∧
             (rowStep old i blo bhi js acc best).1 j' ≤ j' + 1 - blo) := by
  intro js
  induction js with
  | nil =>
    intro acc best hbest hacc
    simp only [rowStep]
    exact ⟨hbest, hacc⟩
  | cons j0 rest ih =>
    intro acc best hbest hacc
    simp only [rowStep]
    by_cases hcont : j0 < blo
    · rw [if_pos hcont]
      exact ih acc best hbest hacc
    · rw [if_neg hcont]
      by_cases hbrk : bhi ≤ j0
      · rw [if_pos hbrk]
        exact ⟨hbest, hacc⟩
      · rw [if_neg hbrk]
        have hkb : (if j0 = 0 then 0 else old (j0 - 1)) + 1 ≤ i + 1 - alo ∧
            (if j0 = 0 then 0 else old (j0 - 1)) + 1 ≤ j0 + 1 - blo := by
          by_cases hj0 : j0 = 0
          · subst hj0
            rw [if_pos rfl]
            omega
          · rw [if_neg hj0]
            have hh := hold (j0 - 1)
            omega
        apply ih
        · by_cases hup : best.bestsize < (if j0 = 0 then 0 else old (j0 - 1)) + 1
          · rw [if_pos hup]
            obtain ⟨b1, b2, b3, b4⟩ := hbest
            refine ⟨?_, ?_, ?_, ?_⟩ <;> dsimp only <;> omega
          · rw [if_neg hup]
            exact hbest
        · intro j'
          by_cases hj : j' = j0
          · subst hj
            simp only [if_pos rfl]
            exact hkb
          · simp only [if_neg hj]
            exact hacc j'

/-- The outer row loop keeps the match inside the window. -/
theorem dpLoop_inv (a b : List Char) (alo ahi blo bhi : Nat) :
    ∀ (m i0 : Nat) (j2len : Nat → Nat) (best : BestM),
      alo ≤ i0 → i0 + m ≤ ahi →
      (∀ j', j2len j' ≤ i0 - alo ∧ j2len j' ≤ j' + 1 - blo) →
      BestInv alo ahi blo bhi best →
      BestInv alo ahi blo bhi (dpLoop a b blo bhi (List.range' i0 m) j2len best) := by
  intro m
  induction m with
  | zero =>
    intro i0 j2len best _ _ _ hbest
    simpa only [List.range', dpLoop] using hbest
  | succ m ih =>
    intro i0 j2len best h1 h2 hmap hbest
    rw [List.range'_succ]
    simp only [dpLoop]
    have hrow := rowStep_inv j2len i0 alo ahi blo bhi h1 (by omega) hmap
      (b2j b (a.getD i0 nullChar)) (fun _ => 0) best hbest
      (fun j' => ⟨Nat.zero_le _, Nat.zero_le _⟩)
    exact ih (i0 + 1) _ _ (by omega) (by omega)
      (fun j' => by have hh := hrow.2 j'; omega) hrow.1

/-- The dynamic program reports a match inside the window. -/
theorem dpBest_inv (a b : List Char) (alo ahi blo bhi : Nat)
    (h1 : alo ≤ ahi) (h2 : blo ≤ bhi) :
    BestInv alo ahi blo bhi (dpBest a b alo ahi blo bhi) := by
  unfold dpBest
  refine dpLoop_inv a b alo ahi blo bhi (ahi - alo) alo (fun _ => 0) ⟨alo, blo, 0⟩
    (le_refl _) (by omega) (fun j' => ⟨Nat.zero_le _, Nat.zero_le _⟩) ?_
  refine ⟨?_, ?_, ?_, ?_⟩ <;> dsimp only <;> omega

/-- The first extension loop keeps the match inside the window. -/
theorem extendLo_inv (a b : List Char) (junk : Char → Bool) (alo ahi blo bhi : Nat) :
    ∀ (fuel : Nat) (best : BestM), BestInv alo ahi blo bhi best →
      BestInv alo ahi blo bhi (extendLo a b junk alo blo fuel best) := by
  intro fuel
  induction fuel with
  | zero =>
    intro best hb
    simpa only [extendLo] using hb
  | succ fuel ih =>
    intro best hb
    simp only [extendLo]
    split_ifs with h
    · apply ih
      obtain ⟨b1, b2, b3, b4⟩ := hb
      obtain ⟨g1, g2, g3, g4⟩ := h
      refine ⟨?_, ?_, ?_, ?_⟩ <;> dsimp only <;> omega
    · exact hb

/-- The second extension loop keeps the match inside the window. -/
theorem extendHi_inv (a b : List Char) (junk : Char → Bool) (alo ahi blo bhi : Nat) :
    ∀ (fuel : Nat) (best : BestM), BestInv alo ahi blo bhi best →
      BestInv alo ahi blo bhi (extendHi a b junk ahi bhi fuel best) := by
  intro fuel
  induction fuel with
  | zero =>
    intro best hb
    simpa only [extendHi] using hb
  | succ fuel ih =>
    intro best hb
    simp only [extendHi]
    split_ifs with h
    · apply ih
      obtain ⟨b1, b2, b3, b4⟩ := hb
      obtain ⟨g1, g2, g3, g4⟩ := h
      refine ⟨?_, ?_, ?_, ?_⟩ <;> dsimp only <;> omega
    · exact hb

/-- With the empty junk set the third extension loop is the identity. -/
theorem extendLoJunk_id (a b : List Char) (alo blo : Nat) :
    ∀ (fuel : Nat) (best : BestM), extendLoJunk a b noJunk alo blo fuel best = best := by
  intro fuel
  cases fuel with
  | zero => intro best; rfl
  | succ fuel =>
    intro best
    simp [extendLoJunk, noJunk]

/-- With the empty junk set the fourth extension loop is the identity. -/
theorem extendHiJunk_id (a b : List Char) (ahi bhi : Nat) :
    ∀ (fuel : Nat) (best : BestM), extendHiJunk a b noJunk ahi bhi fuel best = best := by
  intro fuel
  cases fuel with
  | zero => intro best; rfl
  | succ fuel =>
    intro best
    simp [extendHiJunk, noJunk]

/-- `find_longest_match` reports a match inside the window. -/
theorem findLongestMatch_inv (a b : List Char) (alo ahi blo bhi : Nat)
    (h1 : alo ≤ ahi) (h2 : blo ≤ bhi) :
    BestInv alo ahi blo bhi (findLongestMatch a b alo ahi blo bhi) := by
  simp only [findLongestMatch]
  rw [extendHiJunk_id, extendLoJunk_id]
  exact extendHi_inv a b noJunk alo ahi blo bhi _ _
    (extendLo_inv a b noJunk alo ahi blo bhi _ _
      (dpBest_inv a b alo ahi blo bhi h1 h2))

/-- The first extension loop walks a diagonal best down to the start of
the window: `besti` many steps always fire on the self comparison. -/
theorem extendLo_diag (x : List Char) :
    ∀ (d s : Nat), extendLo x x noJunk 0 0 d ⟨d, d, s⟩ = ⟨0, 0, s + d⟩ := by
  intro d
  induction d with
  | zero => intro s; rfl
  | succ d ih =>
    intro s
    unfold extendLo
    split_ifs with h
    · show extendLo x x noJunk 0 0 d ⟨d, d, s + 1⟩ = ⟨0, 0, s + (d + 1)⟩
      rw [ih (s + 1)]
      congr 1
      omega
    · exact absurd ⟨Nat.succ_pos d, Nat.succ_pos d, rfl, rfl⟩ h

/-- The second extension loop walks a start-anchored best of the self
comparison up to the full length. -/
theorem extendHi_diag (x : List Char) :
    ∀ (fuel t : Nat), t ≤ x.length → x.length - t ≤ fuel →
      extendHi x x noJunk x.length x.length fuel ⟨0, 0, t⟩ = ⟨0, 0, x.length⟩ := by
  intro fuel
  induction fuel with
  | zero =>
    intro t h1 h2
    have ht : t = x.length := by omega
    subst ht
    rfl
  | succ fuel ih =>
    intro t h1 h2
    by_cases ht : t < x.length
    · unfold extendHi
      split_ifs with h
      · exact ih (t + 1) (by omega) (by omega)
      · exact absurd ⟨show 0 + t < x.length from by omega,
          show 0 + t < x.length from by omega, rfl, rfl⟩ h
    · have ht' : t = x.length := by omega
      subst ht'
      unfold extendHi
      split_ifs with h
      · exact absurd (show 0 + x.length < x.length from h.1) (by omega)
      · rfl

/-- `find_longest_match` of a string against itself over the full
windows returns the whole string as the match. -/
theorem findLongestMatch_self (x : List Char) :
    findLongestMatch x x 0 x.length 0 x.length = ⟨0, 0, x.length⟩ := by
  have hdiag := dpBest_diag x
  have hinv := dpBest_inv x x 0 x.length 0 x.length (Nat.zero_le _) (Nat.zero_le _)
  simp only [findLongestMatch]
  rw [extendHiJunk_id, extendLoJunk_id]
  rcases hb : dpBest x x 0 x.length 0 x.length with ⟨i0, j0, s0⟩
  rw [hb] at hdiag hinv
  have hij : i0 = j0 := hdiag
  subst hij
  have hs : i0 + s0 ≤ x.length := hinv.2.2.1
  dsimp only
  rw [extendLo_diag x i0 s0]
  exact extendHi_diag x (x.length + x.length + 1) (s0 + i0) (by omega) (by omega)

/-- The matching-block total of the self comparison is the whole
length, for any positive fuel. -/
theorem matchesTotal_self (x : List Char) (fuel : Nat) :
    matchesTotal x x (fuel + 1) 0 x.length 0 x.length = x.length := by
  simp only [matchesTotal, findLongestMatch_self]
  simp only [Nat.zero_add, lt_self_iff_false, false_and, and_false, if_false, Nat.add_zero]
  split_ifs with h
  · omega
  · rfl

/-- `ratio` of a string against itself is `1`. -/
theorem seqRatio_self (x : List Char) : seqRatio x x = 1 := by
  have hm : matchesTotal x x (x.length + x.length + 1) 0 x.length 0 x.length = x.length :=
    matchesTotal_self x (x.length + x.length)
  show (if x.length + x.length = 0 then (1 : ℚ)
      else (2 * (matchesTotal x x (x.length + x.length + 1) 0 x.length 0 x.length) : ℚ) /
        ((x.length : ℚ) + (x.length : ℚ))) = 1
  rw [hm]
  by_cases h : x.length + x.length = 0
  · rw [if_pos h]
  · rw [if_neg h]
    have h0 : 0 < x.length := by omega
    have hq : (0 : ℚ) < (x.length : ℚ) := by exact_mod_cast h0
    rw [div_eq_iff (by linarith : (x.length : ℚ) + (x.length : ℚ) ≠ 0)]
    ring

/-- The matching-block total never exceeds either window width. -/
theorem matchesTotal_le (a b : List Char) :
    ∀ (fuel alo ahi blo bhi : Nat), alo ≤ ahi → blo ≤ bhi →
      matchesTotal a b fuel alo ahi blo bhi ≤ ahi - alo ∧
      matchesTotal a b fuel alo ahi blo bhi ≤ bhi - blo := by
  intro fuel
  induction fuel with
  | zero =>
    intro alo ahi blo bhi _ _
    exact ⟨Nat.zero_le _, Nat.zero_le _⟩
  | succ fuel ih =>
    intro alo ahi blo bhi h1 h2
    obtain ⟨b1, b2, b3, b4⟩ := findLongestMatch_inv a b alo ahi blo bhi h1 h2
    simp only [matchesTotal]
    set m := findLongestMatch a b alo ahi blo bhi with hm
    by_cases hz : m.bestsize = 0
    · rw [if_pos hz]
      exact ⟨Nat.zero_le _, Nat.zero_le _⟩
    · rw [if_neg hz]
      have hL : (if alo < m.besti ∧ blo < m.bestj then
            matchesTotal a b fuel alo m.besti blo m.bestj else 0) ≤ m.besti - alo ∧
          (if alo < m.besti ∧ blo < m.bestj then
            matchesTotal a b fuel alo m.besti blo m.bestj else 0) ≤ m.bestj - blo := by
        split_ifs with hc
        · exact ih alo m.besti blo m.bestj (le_of_lt hc.1) (le_of_lt hc.2)
        · exact ⟨Nat.zero_le _, Nat.zero_le _⟩
      have hR : (if m.besti + m.bestsize < ahi ∧ m.bestj + m.bestsize < bhi then
            matchesTotal a b fuel (m.besti + m.bestsize) ahi (m.bestj + m.bestsize) bhi else 0)
              ≤ ahi - (m.besti + m.bestsize) ∧
          (if m.besti + m.bestsize < ahi ∧ m.bestj + m.bestsize < bhi then
            matchesTotal a b fuel (m.besti + m.bestsize) ahi (m.bestj + m.bestsize) bhi else 0)
              ≤ bhi - (m.bestj + m.bestsize) := by
        split_ifs with hc
        · exact ih _ _ _ _ (le_of_lt hc.1) (le_of_lt hc.2)
        · exact ⟨Nat.zero_le _, Nat.zero_le _⟩
      constructor <;> omega

/-- `ratio` is non-negative. -/
theorem seqRatio_nonneg (a b : List Char) : 0 ≤ seqRatio a b := by
  show (0 : ℚ) ≤ (if a.length + b.length = 0 then (1 : ℚ)
      else (2 * (matchesTotal a b (a.length + b.length + 1) 0 a.length 0 b.length) : ℚ) /
        ((a.length : ℚ) + (b.length : ℚ)))
  split_ifs with h
  · norm_num
  · apply div_nonneg
    · positivity
    · positivity

/-- `ratio` is at most `1`. -/
theorem seqRatio_le_one (a b : List Char) : seqRatio a b ≤ 1 := by
  have hm := matchesTotal_le a b (a.length + b.length + 1) 0 a.length 0 b.length
    (Nat.zero_le _) (Nat.zero_le _)
  show (if a.length + b.length = 0 then (1 : ℚ)
      else (2 * (matchesTotal a b (a.length + b.length + 1) 0 a.length 0 b.length) : ℚ) /
        ((a.length : ℚ) + (b.length : ℚ))) ≤ 1
  split_ifs with h
  · exact le_refl 1
  · have hpos : (0 : ℚ) < (a.length : ℚ) + (b.length : ℚ) := by
      have h0 : 0 < a.length + b.length := Nat.pos_of_ne_zero h
      exact_mod_cast h0
    rw [div_le_one hpos]
    have h2 : 2 * matchesTotal a b (a.length + b.length + 1) 0 a.length 0 b.length
        ≤ a.length + b.length := by omega
    exact_mod_cast h2

/-- Python's round is squeezed by any integer bounds of its argument. -/
theorem pyRound_bounds (q : ℚ) (lo hi : ℤ) (h1 : (lo : ℚ) ≤ q) (h2 : q ≤ (hi : ℚ)) :
    lo ≤ pyRound q ∧ pyRound q ≤ hi := by
  have hf1 : (⌊q⌋ : ℚ) ≤ q := Int.floor_le q
  have hf2 : lo ≤ ⌊q⌋ := Int.le_floor.mpr h1
  have hf3 : ⌊q⌋ ≤ hi := by
    have hq : (⌊q⌋ : ℚ) ≤ (hi : ℚ) := le_trans hf1 h2
    exact_mod_cast hq
  simp only [pyRound]
  split_ifs with hA hB hC
  · exact ⟨hf2, hf3⟩
  · have hflt : ⌊q⌋ < hi := by
      have h4 : (⌊q⌋ : ℚ) < (hi : ℚ) := by linarith
      exact_mod_cast h4
    exact ⟨by omega, by omega⟩
  · exact ⟨hf2, hf3⟩
  · have hflt : ⌊q⌋ < hi := by
      have h4 : (⌊q⌋ : ℚ) + 1 / 2 ≤ (hi : ℚ) := by linarith
      have h5 : (⌊q⌋ : ℚ) < (hi : ℚ) := by linarith
      exact_mod_cast h5
    exact ⟨by omega, by omega⟩

/-- Python's round is the identity on integers. -/
theorem pyRound_intCast (k : ℤ) : pyRound (k : ℚ) = k := by
  simp only [pyRound, Int.floor_intCast, sub_self]
  norm_num

/-- C8: `sim` returns `0` when either raw string is empty; it always
returns a value in `[0, 100]` that is an integer number of hundredths
(two decimals); and whenever the two strings agree after lowercasing,
whitespace-run collapsing and stripping — in particular when they
differ only in letter case and in runs of whitespace, as in
`"hello world"` versus `"hello   world"` — it returns `100`. -/
theorem sim_zero_bounded_hundred :
    (∀ a b : String, a = "" ∨ b = "" → sim a b = 0)
  ∧ (∀ a b : String, 0 ≤ sim a b ∧ sim a b ≤ 100 ∧ ∃ k : ℤ, sim a b = (k : ℚ) / 100)
  ∧ (∀ a b : String, a ≠ "" → b ≠ "" →
      pyStrip (normText a) = pyStrip (normText b) → sim a b = 100) := by
  refine ⟨?_, ?_, ?_⟩
  · intro a b h
    unfold sim
    rw [if_pos h]
  · intro a b
    by_cases h : a = "" ∨ b = ""
    · unfold sim
      rw [if_pos h]
      exact ⟨le_refl 0, by norm_num, 0, by norm_num⟩
    · unfold sim
      rw [if_neg h]
      unfold round2
      have h0 := seqRatio_nonneg (pyStrip (normText a)).data (pyStrip (normText b)).data
      have h1 := seqRatio_le_one (pyStrip (normText a)).data (pyStrip (normText b)).data
      set q := seqRatio (pyStrip (normText a)).data (pyStrip (normText b)).data with hq
      have harg1 : ((0 : ℤ) : ℚ) ≤ q * 100 * 100 := by
        push_cast
        nlinarith
      have harg2 : q * 100 * 100 ≤ ((10000 : ℤ) : ℚ) := by
        push_cast
        nlinarith
      obtain ⟨hr1, hr2⟩ := pyRound_bounds (q * 100 * 100) 0 10000 harg1 harg2
      refine ⟨?_, ?_, pyRound (q * 100 * 100), rfl⟩
      · apply div_nonneg
        · exact_mod_cast hr1
        · norm_num
      · rw [div_le_iff (by norm_num : (0 : ℚ) < 100)]
        have hc : ((pyRound (q * 100 * 100) : ℤ) : ℚ) ≤ ((10000 : ℤ) : ℚ) := by
          exact_mod_cast hr2
        norm_num at hc ⊢
        linarith
  · intro a b ha hb heq
    unfold sim
    rw [if_neg (by
      rintro (h | h)
      · exact ha h
      · exact hb h)]
    rw [heq, seqRatio_self]
    unfold round2
    rw [show (1 : ℚ) * 100 * 100 = ((10000 : ℤ) : ℚ) from by norm_num, pyRound_intCast]
    norm_num

/-- C8 witness: the spec's two doctest examples, `sim("", "anything")`
and `sim("hello world", "hello   world")`. -/
theorem sim_zero_bounded_hundred_witness :
    sim "" "anything" = 0 ∧ sim "hello world" "hello   world" = 100 :=
  ⟨sim_zero_bounded_hundred.1 "" "anything" (Or.inl rfl),
   sim_zero_bounded_hundred.2.2 "hello world" "hello   world"
     (by decide) (by decide) (by decide)⟩

end DD
